import Mathlib

/-!
Shallow embedding of `src/ert/config/ert_config.py` (class `ErtConfig` and its
helpers) together with proofs about the configuration-loading pipeline.

Python dictionaries are modelled as association lists, mutation as explicit
state passing, `raise` as `Except`, and `warnings.warn` as an explicit list of
warning messages returned alongside the result.  Functions imported from
modules that are not part of the sources (the lark parser, `ExtJob`,
`WorkflowJob`, `Workflow`, the sub-config `from_dict` constructors, the
`SubstitutionList` substitution engine and all filesystem access) are taken as
parameters, collected in the `Externals` structure, so every theorem holds for
an arbitrary behaviour of those collaborators unless stated otherwise.
-/

namespace ErtSpec

/-! ## Small Python-semantics helpers -/

/-- Boolean test that `needle` occurs as a contiguous sublist of `hay`;
models Python's `in` operator on strings (via `String.data`). -/
def containsSub (needle hay : List Char) : Bool :=
  needle.isPrefixOf hay ||
    match hay with
    | [] => false
    | _ :: t => containsSub needle t

/-- Python `repr` of a simple string (no embedded quotes): wraps it in
single quotes, as the `!r` format specifier does. -/
def pyRepr (s : String) : String := "'" ++ s ++ "'"

/-- Comma-space join, `', '.join(...)` as used by `repr` of a list. -/
def joinComma : List String → String
  | [] => ""
  | [x] => x
  | x :: rest => x ++ ", " ++ joinComma rest

/-- Python `repr` of a list of strings, e.g. `['a', 'b']`. -/
def pyReprList (l : List String) : String :=
  "[" ++ joinComma (l.map pyRepr) ++ "]"

/-- Digits of an integer literal as Python's `int` accepts them: nonempty,
with single underscores allowed strictly between digits. -/
def pyDigitsOk : List Char → Bool
  | [] => false
  | [c] => c.isDigit
  | c :: '_' :: rest => c.isDigit && pyDigitsOk rest
  | c :: rest => c.isDigit && pyDigitsOk rest

/-- Numeric value of a digit string read left to right, skipping underscores. -/
def pyDigitsValAux (acc : Nat) : List Char → Nat
  | [] => acc
  | '_' :: rest => pyDigitsValAux acc rest
  | c :: rest => pyDigitsValAux (acc * 10 + (c.toNat - '0'.toNat)) rest

/-- Python `int(s)`: optional surrounding whitespace, optional sign, digits
with underscores between digits.  Returns `none` where CPython raises
`ValueError`. -/
def pyInt (s : String) : Option Int :=
  let t := s.data.dropWhile (·.isWhitespace)
  let t := (t.reverse.dropWhile (·.isWhitespace)).reverse
  match t with
  | '+' :: rest => if pyDigitsOk rest then some (pyDigitsValAux 0 rest) else none
  | '-' :: rest => if pyDigitsOk rest then some (-(pyDigitsValAux 0 rest : Int)) else none
  | rest => if pyDigitsOk rest then some (pyDigitsValAux 0 rest) else none

/-- Non-overlapping left-to-right replacement, Python's `str.replace` on
character lists, with a step budget for structural recursion (each step
consumes at least one input character, so a budget of the input length is
exact).  An empty needle leaves the input unchanged (the one use site
passes the literal `"%d"`). -/
def replaceChars (needle repl : List Char) : Nat → List Char → List Char
  | 0, l => l
  | _ + 1, [] => []
  | fuel + 1, c :: rest =>
    if needle ≠ [] ∧ needle.isPrefixOf (c :: rest) then
      repl ++ replaceChars needle repl fuel ((c :: rest).drop needle.length)
    else c :: replaceChars needle repl fuel rest

/-- Python `s.replace(old, new)` for strings. -/
def strReplace (s old new : String) : String :=
  String.mk (replaceChars old.data new.data s.data.length s.data)

/-- Python `s.lower()` (ASCII, as all uses here are ASCII keywords). -/
def strToLower (s : String) : String := String.mk (s.data.map Char.toLower)

/-! ## POSIX path helpers (`os.path`) -/

/-- `os.path.isabs` on POSIX: the path starts with a slash. -/
def isAbs (p : String) : Bool := p.data.head? = some '/'

/-- Whether a path ends with a slash (`a.endswith('/')` in `posixpath.join`). -/
def endsWithSlash (p : String) : Bool := p.data.getLast? = some '/'

/-- `os.path.join(a, b)` on POSIX for two components. -/
def pathJoin (a b : String) : String :=
  if isAbs b then b
  else if a = "" || endsWithSlash a then a ++ b
  else a ++ "/" ++ b

/-- Split a character list on a separator, Python's `str.split(sep)` /
`String.splitOn` for a one-character separator. -/
def splitOnChar (sep : Char) : List Char → List (List Char)
  | [] => [[]]
  | c :: rest =>
    match splitOnChar sep rest with
    | [] => [[c]]
    | h :: t => if c = sep then [] :: h :: t else (c :: h) :: t

/-- Component filter of `posixpath.normpath`: drop empty and `.` parts,
resolve `..` against the accumulated prefix. -/
def normpathComps (initialSlashes : Nat) : List String → List String → List String
  | acc, [] => acc
  | acc, comp :: rest =>
    if comp = "" || comp = "." then normpathComps initialSlashes acc rest
    else if comp ≠ ".." || (initialSlashes = 0 && acc = []) ||
        (acc ≠ [] && acc.getLast? = some "..") then
      normpathComps initialSlashes (acc ++ [comp]) rest
    else
      normpathComps initialSlashes acc.dropLast rest

/-- `posixpath.normpath`. -/
def normpath (p : String) : String :=
  if p = "" then "."
  else
    let initialSlashes : Nat :=
      match p.data with
      | '/' :: '/' :: '/' :: _ => 1
      | '/' :: '/' :: _ => 2
      | '/' :: _ => 1
      | _ => 0
    let comps := (splitOnChar '/' p.data).map String.mk
    let newComps := normpathComps initialSlashes [] comps
    let joined := String.intercalate "/" newComps
    let out := String.mk (List.replicate initialSlashes '/') ++ joined
    if out = "" then "." else out

/-- Decidable equality on `Except`, for evaluating the embedded functions
at concrete inputs. -/
instance {ε α : Type} [DecidableEq ε] [DecidableEq α] :
    DecidableEq (Except ε α) := fun x y =>
  match x, y with
  | .ok a, .ok b =>
    if h : a = b then .isTrue (by rw [h])
    else .isFalse (fun hh => h (Except.ok.inj hh))
  | .error a, .error b =>
    if h : a = b then .isTrue (by rw [h])
    else .isFalse (fun hh => h (Except.error.inj hh))
  | .ok _, .error _ => .isFalse (fun hh => Except.noConfusion hh)
  | .error _, .ok _ => .isFalse (fun hh => Except.noConfusion hh)

/-! ## Error and warning model

`ErrorInfo` and `ConfigValidationError` live in the `parsing` module, which is
not among the sources.  Modelled from the spec: diagnostics are
`{message, source-file, context-token}` records; `from_collected` concatenates
the entries of a heterogeneous list of `ErrorInfo`s and already-collected
errors into one exception carrying them all. -/

structure ErrorInfo where
  message : String
  filename : Option String := none
  context : Option String := none
  deriving DecidableEq, Repr

/-- A `ConfigValidationError` carries the list of collected `ErrorInfo`s. -/
abbrev CVE := List ErrorInfo

/-- `ConfigValidationError(errors=msg, config_file=f)` with a single message. -/
def mkCVE (msg : String) (file : Option String := none) : CVE :=
  [{ message := msg, filename := file }]

/-- An element of the heterogeneous `errors` accumulator in `from_dict`:
either a bare `ErrorInfo` or an already-raised `ConfigValidationError`. -/
abbrev ErrItem := Sum ErrorInfo CVE

/-- Modelled from the spec: `ConfigValidationError.from_collected` flattens
the accumulated diagnostics into one exception. -/
def fromCollected (items : List ErrItem) : CVE :=
  items.flatMap fun it => match it with
    | .inl e => [e]
    | .inr es => es

/-! ## Data model -/

/-- The substitution table (external `SubstitutionList`).  Modelled from the
spec: an ordered key→value mapping with unique keys, last write wins. -/
abbrev SubstitutionList := List (String × String)

/-- Dict-style insert: update the value in place if the key exists,
otherwise append. -/
def dictSet (l : List (String × String)) (k v : String) : List (String × String) :=
  if l.any (fun kv => kv.1 = k) then
    l.map fun kv => if kv.1 = k then (k, v) else kv
  else l ++ [(k, v)]

/-- Lookup in an association list (Python `d[k]` / `d.get(k)`). -/
def dictGet (l : List (String × String)) (k : String) : Option String :=
  (l.find? fun kv => kv.1 = k).map Prod.snd

def slSet (sl : SubstitutionList) (k v : String) : SubstitutionList := dictSet sl k v

def slGet (sl : SubstitutionList) (k : String) : Option String := dictGet sl k

/-- Dict-style insert for association lists with arbitrary value type. -/
def alistSet {α : Type} (l : List (String × α)) (k : String) (v : α) :
    List (String × α) :=
  if l.any (fun kv => kv.1 = k) then
    l.map fun kv => if kv.1 = k then (k, v) else kv
  else l ++ [(k, v)]

/-- Association-list lookup (`d[k]` / `k in d`). -/
def alistGet {α : Type} (l : List (String × α)) (k : String) : Option α :=
  (l.find? fun kv => kv.1 = k).map Prod.snd

/-- `ExtJob`: a forward-model job definition (class `ExtJob` of the
`ext_job` module, which is not among the sources; fields are the ones the
`ErtConfig` source reads or writes). -/
structure ExtJob where
  name : String := ""
  executable : String := ""
  arglist : List String := []
  private_args : SubstitutionList := []
  environment : List (String × Option String) := []
  exec_env : List (String × Option String) := []
  default_mapping : List (String × String) := []
  stdout_file : Option String := none
  stderr_file : Option String := none
  stdin_file : Option String := none
  start_file : Option String := none
  error_file : Option String := none
  target_file : Option String := none
  max_running : Option Int := none
  max_running_minutes : Option Int := none
  min_arg : Option Int := none
  max_arg : Option Int := none
  arg_types : List String := []
  deriving DecidableEq, Inhabited, Repr

/-- External `EnsembleConfig`; `ErtConfig` only reads its `refcase`. -/
structure EnsembleConfig where
  refcase : Option String := none
  deriving DecidableEq, Inhabited

/-- External `ModelConfig`; `ErtConfig` reads its two format strings. -/
structure ModelConfig where
  runpath_format_string : String := ""
  eclbase_format_string : String := ""
  deriving DecidableEq, Inhabited

/-- External `AnalysisConfig`, treated as an abstract comparable value. -/
structure AnalysisConfig where
  options : List (String × String) := []
  deriving DecidableEq, Inhabited

/-- External `QueueConfig`, treated as an abstract comparable value. -/
structure QueueConfig where
  options : List (String × String) := []
  deriving DecidableEq, Inhabited

/-- External `WorkflowJob`; `ErtConfig` only reads its `name`. -/
structure WorkflowJob where
  name : String := ""
  deriving DecidableEq, Inhabited

/-- External `Workflow`, treated as an abstract comparable value. -/
structure Workflow where
  src_file : String := ""
  deriving DecidableEq, Inhabited

/-- External `WarningInfo` collected by the parser. -/
structure WarningInfo where
  message : String := ""
  deriving DecidableEq, Inhabited

/-- Argument payload of a `FORWARD_MODEL` entry: the old parser passes a
flat string, the new parser a list of key/value pairs. -/
inductive FMArgs where
  | fromString (s : String)
  | pairs (l : List (String × String))
  deriving DecidableEq, Repr

/-- One `FORWARD_MODEL` entry of the config dict: `[name]` or `(name, args)`. -/
inductive FMEntry where
  | nameOnly (name : String)
  | withArgs (name : String) (args : FMArgs)
  deriving DecidableEq, Repr

/-- The parsed configuration dictionary (`ConfigDict`): each recognized
keyword that `ErtConfig` consults, `none` meaning the keyword is absent.
`warning_infos` models the attribute carried by the new parser's dict
subclass (`hasattr` false when `none`). -/
structure ConfigDict where
  ENSPATH : Option String := none
  RUNPATH_FILE : Option String := none
  SUMMARY : Option (List (List String)) := none
  ECLBASE : Option String := none
  QUEUE_OPTION : Option (List (List String)) := none
  FORWARD_MODEL : Option (List FMEntry) := none
  SIMULATION_JOB : Option (List (List String)) := none
  INSTALL_JOB : Option (List (String × String)) := none
  INSTALL_JOB_DIRECTORY : Option (List String) := none
  GEN_KW : Option (List (List String)) := none
  LOAD_WORKFLOW_JOB : Option (List (List String)) := none
  WORKFLOW_JOB_DIRECTORY : Option (List String) := none
  LOAD_WORKFLOW : Option (List (List String)) := none
  HOOK_WORKFLOW : Option (List (String × String)) := none
  SETENV : Option (List (String × String)) := none
  RANDOM_SEED : Option String := none
  DATA_FILE : Option String := none
  RUN_TEMPLATE : Option (List (List String)) := none
  warning_infos : Option (List WarningInfo) := none

/-- `ErtConfig.DEFAULT_ENSPATH`. -/
def DEFAULT_ENSPATH : String := "storage"

/-- `ErtConfig.DEFAULT_RUNPATH_FILE`. -/
def DEFAULT_RUNPATH_FILE : String := ".ert_runpath_list"

/-- `ErtConfig.apply_config_content_defaults`: inject a default `ENSPATH`
and `RUNPATH_FILE` relative to the config directory, and make a declared
relative `RUNPATH_FILE` absolute by joining and normalizing it against the
config directory. -/
def apply_config_content_defaults (content_dict : ConfigDict)
    (config_dir : String) : ConfigDict :=
  let d1 :=
    match content_dict.ENSPATH with
    | none => { content_dict with ENSPATH := some (pathJoin config_dir DEFAULT_ENSPATH) }
    | some _ => content_dict
  match d1.RUNPATH_FILE with
  | none =>
    { d1 with RUNPATH_FILE := some (pathJoin config_dir DEFAULT_RUNPATH_FILE) }
  | some rp =>
    if ¬ isAbs rp then
      { d1 with RUNPATH_FILE := some (normpath (pathJoin config_dir rp)) }
    else d1

/-- `ErtConfig._validate_dict`: `SUMMARY` without `ECLBASE` is an error whose
context token is the first `SUMMARY` keyword. -/
def validate_dict (config_dict : ConfigDict) (config_file : String) :
    List ErrorInfo :=
  if config_dict.SUMMARY.isSome ∧ config_dict.ECLBASE.isNone then
    [{ message := "When using SUMMARY keyword, the config must also specify ECLBASE",
       filename := some config_file,
       context := some ((((config_dict.SUMMARY.getD []).headD []).headD "")) }]
  else []

/-- Python `int(*values)`: zero arguments yield `0`, one argument is parsed
as a decimal literal (`none` is a `ValueError`), and two or more arguments
raise a `TypeError`, which `_validate_queue_option_max_running` does not
catch (`Except.error ()`). -/
def pyIntStar : List String → Except Unit (Option Int)
  | [] => .ok (some 0)
  | [v] => .ok (pyInt v)
  | _ => .error ()

/-- Per-entry processing of `ErtConfig._validate_queue_option_max_running`:
entries destructure as `_, option_name, *values`; a `MAX_RUNNING` value that
is not an integer, or negative, contributes one `ErrorInfo`. -/
def validateQOMREntries (config_path : String) :
    List (List String) → Except Unit (List ErrorInfo)
  | [] => .ok []
  | entry :: rest => do
    let tail ← validateQOMREntries config_path rest
    match entry with
    | _ :: optionName :: values =>
      if optionName = "MAX_RUNNING" then
        match ← pyIntStar values with
        | none =>
          .ok ({ message := "QUEUE_OPTION MAX_RUNNING is not an integer: "
                    ++ pyRepr (values.headD ""),
                 filename := some config_path,
                 context := values.head? } :: tail)
        | some n =>
          if n < 0 then
            .ok ({ message := "QUEUE_OPTION MAX_RUNNING is negative: "
                      ++ pyRepr (values.headD ""),
                   filename := some config_path,
                   context := values.head? } :: tail)
          else .ok tail
      else .ok tail
    | _ => .error ()

/-- `ErtConfig._validate_queue_option_max_running` over the config dict. -/
def validate_queue_option_max_running (config_path : String)
    (config_dict : ConfigDict) : Except Unit (List ErrorInfo) :=
  validateQOMREntries config_path (config_dict.QUEUE_OPTION.getD [])

/-- Case-insensitive substring test, Python's `a.lower() in b.lower()`. -/
def containsSubCI (needle hay : String) : Bool :=
  containsSub (strToLower needle).data (strToLower hay).data

/-- `find_first_gen_kw_arg` inside `_validate_ensemble_config`: the first
argument of the (unique) arglist for `kw_id` containing `matching`
case-insensitively; two arglists for the same id raise immediately. -/
def findFirstGenKwArg (gen_kw : List (List String)) (kw_id matching : String) :
    Except CVE (Option String) :=
  let all_arglists := gen_kw.filter fun arglist => arglist.headD "" = kw_id
  if all_arglists.length > 1 then
    .error (mkCVE ("Found two GEN_KW " ++ kw_id ++ " declarations"))
  else
    .ok ((all_arglists.headD []).find? fun arg => containsSubCI matching arg)

/-- Loop body of `ErtConfig._validate_ensemble_config` over the deduplicated
`GEN_KW` id list. -/
def validateGenKwIds (config_file : String) (gen_kw : List (List String)) :
    List String → Except CVE (List CVE)
  | [] => .ok []
  | kw_id :: rest => do
    let mut_errors₁ ←
      (do
        let use_fwd_init ← findFirstGenKwArg gen_kw kw_id "FORWARD_INIT:TRUE"
        pure (if use_fwd_init.isSome then
          [mkCVE "Loading GEN_KW from files created by the forward model is not supported."
              (some config_file)]
        else []) : Except CVE (List CVE))
    let mut_errors₂ ←
      (do
        let init_files ← findFirstGenKwArg gen_kw kw_id "INIT_FILES:"
        pure (match init_files with
          | some tok =>
            if ¬ tok.contains '%' then
              [mkCVE "Loading GEN_KW from files requires %d in file format"
                  (some config_file)]
            else []
          | none => []) : Except CVE (List CVE))
    let tail ← validateGenKwIds config_file gen_kw rest
    .ok (mut_errors₁ ++ mut_errors₂ ++ tail)

/-- `ErtConfig._validate_ensemble_config`: returns the list of collected
`ConfigValidationError`s; the duplicate-declaration check raises out of the
function (uncaught in `from_dict`). The Python id list is built from a set;
we model it with first-occurrence deduplication. -/
def validate_ensemble_config (config_file : String) (config_dict : ConfigDict) :
    Except CVE (List CVE) :=
  let gen_kw := config_dict.GEN_KW.getD []
  let gen_kw_id_list := (gen_kw.map fun l => l.headD "").eraseDups
  validateGenKwIds config_file gen_kw gen_kw_id_list

/-- Failure mode of the external `WorkflowJob.from_file`. -/
inductive WfLoadErr where
  | scriptLoad (msg : String)
  | cve (e : CVE)

/-- Modelled from the spec: `str()`/`get_cli_message()` of a collected
`ConfigValidationError` joins the collected messages. -/
def cveMessage (e : CVE) : String :=
  String.intercalate ";" (e.map fun i => i.message)

/-- The collaborators `ErtConfig` imports from modules outside the sources
(sub-config constructors, job/workflow loaders, the substitution engine,
the `HookRuntime` enumeration and the filesystem), taken as parameters. -/
structure Externals where
  substitutionFromDict : ConfigDict → SubstitutionList
  substitute : SubstitutionList → String → String
  addFromString : String → Except String (List (String × String))
  ensembleFromDict : ConfigDict → Except CVE EnsembleConfig
  modelConfigFromDict : Option String → ConfigDict → Except CVE ModelConfig
  analysisFromDict : ConfigDict → Except CVE AnalysisConfig
  queueFromDict : ConfigDict → Except CVE QueueConfig
  workflowJobFromFile : String → Option String → Except WfLoadErr WorkflowJob
  workflowFromFile : String → SubstitutionList → List (String × WorkflowJob) →
    Except CVE Workflow
  extJobFromConfigFile : Option String → String → Except CVE ExtJob
  hasHookRuntime : String → Bool
  isdir : String → Bool
  listdir : String → List String
  isfile : String → Bool
  abspath : String → String
  getcwd : String
  checkNonUtf8 : String → Except CVE Unit

/-- `ErtConfig._read_templates`: the `DATA_FILE`/`ECLBASE` template (with the
`%d → <IENS>` rewrite and `.DATA` suffix, after the non-UTF-8 check) followed
by the `RUN_TEMPLATE` entries. -/
def read_templates (ext : Externals) (config_dict : ConfigDict) :
    Except CVE (List (List String)) := do
  let templates ←
    match config_dict.DATA_FILE, config_dict.ECLBASE with
    | some source_file, some eclbase => do
      let target_file := (strReplace eclbase "%d" "<IENS>") ++ ".DATA"
      let _ ← ext.checkNonUtf8 source_file
      pure [[source_file, target_file]]
    | _, _ => pure ([] : List (List String))
  .ok (templates ++ (config_dict.RUN_TEMPLATE.getD []))

/-- The duplicate-name warning text of `_installed_jobs_from_dict`: it names
the winning declaration's config-file path and the executable of the job
being replaced. -/
def duplicateJobWarning (name newPath oldExecutable : String) : String :=
  "Duplicate forward model job with name " ++ pyRepr name ++ ", choosing "
    ++ pyRepr newPath ++ " over " ++ pyRepr oldExecutable

/-- `INSTALL_JOB` loop of `ErtConfig._installed_jobs_from_dict`: load each
declared job file, aggregate load errors, and overwrite duplicates with a
warning. -/
def installJobsLoop (ext : Externals) :
    List (String × String) → List CVE → List String → List (String × ExtJob) →
      List String × List CVE × List (String × ExtJob)
  | [], errors, warns, jobs => (warns, errors, jobs)
  | (name, path) :: rest, errors, warns, jobs =>
    let job_config_file := ext.abspath path
    match ext.extJobFromConfigFile (some name) job_config_file with
    | .error e => installJobsLoop ext rest (errors ++ [e]) warns jobs
    | .ok new_job =>
      let warns :=
        match alistGet jobs name with
        | some old => warns ++ [duplicateJobWarning name job_config_file old.executable]
        | none => warns
      installJobsLoop ext rest errors warns (alistSet jobs name new_job)

/-- Directory-file sub-loop of `_installed_jobs_from_dict`: each regular file
of the directory is loaded as a job named by its declaration file. -/
def installJobDirFilesLoop (ext : Externals) (job_path : String) :
    List String → List CVE → List String → List (String × ExtJob) →
      List String × List CVE × List (String × ExtJob)
  | [], errors, warns, jobs => (warns, errors, jobs)
  | file_name :: rest, errors, warns, jobs =>
    let full_path := ext.abspath (pathJoin job_path file_name)
    if ¬ ext.isfile full_path then
      installJobDirFilesLoop ext job_path rest errors warns jobs
    else
      match ext.extJobFromConfigFile none full_path with
      | .error e => installJobDirFilesLoop ext job_path rest (errors ++ [e]) warns jobs
      | .ok new_job =>
        let name := new_job.name
        let warns :=
          match alistGet jobs name with
          | some old => warns ++ [duplicateJobWarning name full_path old.executable]
          | none => warns
        installJobDirFilesLoop ext job_path rest errors warns (alistSet jobs name new_job)

/-- `INSTALL_JOB_DIRECTORY` loop of `_installed_jobs_from_dict`. -/
def installJobDirsLoop (ext : Externals) :
    List String → List CVE → List String → List (String × ExtJob) →
      List String × List CVE × List (String × ExtJob)
  | [], errors, warns, jobs => (warns, errors, jobs)
  | job_path :: rest, errors, warns, jobs =>
    if ¬ ext.isdir job_path then
      installJobDirsLoop ext rest
        (errors ++ [mkCVE ("Unable to locate job directory " ++ pyRepr job_path)])
        warns jobs
    else
      let files := ext.listdir job_path
      if files.all (fun f => ¬ ext.isfile (ext.abspath (pathJoin job_path f))) then
        installJobDirsLoop ext rest errors
          (warns ++ ["No files found in job directory " ++ job_path]) jobs
      else
        let (warns', errors', jobs') :=
          installJobDirFilesLoop ext job_path files errors warns jobs
        installJobDirsLoop ext rest errors' warns' jobs'

/-- `ErtConfig._installed_jobs_from_dict`: warnings emitted, and either the
job registry or the aggregated load errors. -/
def installed_jobs_from_dict (ext : Externals) (config_dict : ConfigDict) :
    List String × Except CVE (List (String × ExtJob)) :=
  let (warns, errors, jobs) :=
    installJobsLoop ext (config_dict.INSTALL_JOB.getD []) [] [] []
  let (warns, errors, jobs) :=
    installJobDirsLoop ext (config_dict.INSTALL_JOB_DIRECTORY.getD []) errors warns jobs
  if errors ≠ [] then (warns, .error (fromCollected (errors.map .inr)))
  else (warns, .ok jobs)

/-! ## Forward model resolution (`ErtConfig.read_forward_model`) -/

/-- Python truthiness of the `args` payload (`if args:`). -/
def argsTruthy : FMArgs → Bool
  | .fromString s => s ≠ ""
  | .pairs l => l ≠ []

/-- Name and argument payload of one `FORWARD_MODEL` entry
(`if len(job) > 1: name, args = job else: name = job[0]; args = []`). -/
def fmEntryParts : FMEntry → String × FMArgs
  | .nameOnly n => (n, .pairs [])
  | .withArgs n a => (n, a)

/-- Build a job's `private_args` from parsed key/value pairs
(`job.private_args[key] = val` in declaration order). -/
def mkPrivateArgs (pairs : List (String × String)) : SubstitutionList :=
  pairs.foldl (fun acc kv => slSet acc kv.1 kv.2) []

/-- The `FORWARD_MODEL` loop of `read_forward_model`: a missing registry
name or malformed argument string is collected and the entry skipped;
otherwise the (deep-copied) definition, with its private argument scope
attached when arguments were given, is appended. -/
def forwardModelLoop (subst : String → String)
    (addFromString : String → Except String (List (String × String)))
    (installed : List (String × ExtJob)) (config_file : String) :
    List FMEntry → List CVE → List ExtJob → List CVE × List ExtJob
  | [], errors, jobs => (errors, jobs)
  | entry :: rest, errors, jobs =>
    let (unsubstituted_job_name, args) := fmEntryParts entry
    let job_name := subst unsubstituted_job_name
    match alistGet installed job_name with
    | none =>
      forwardModelLoop subst addFromString installed config_file rest
        (errors ++ [mkCVE ("Could not find job " ++ pyRepr job_name
            ++ " in list of installed jobs: "
            ++ pyReprList (installed.map Prod.fst)) (some config_file)])
        jobs
    | some job₀ =>
      if argsTruthy args then
        match args with
        | .fromString s =>
          match addFromString s with
          | .error err =>
            forwardModelLoop subst addFromString installed config_file rest
              (errors ++ [mkCVE (err ++ ": 'FORWARD_MODEL " ++ job_name
                  ++ "(" ++ s ++ ")'") (some config_file)])
              jobs
          | .ok parsed =>
            forwardModelLoop subst addFromString installed config_file rest errors
              (jobs ++ [{ job₀ with private_args := mkPrivateArgs parsed }])
        | .pairs l =>
          forwardModelLoop subst addFromString installed config_file rest errors
            (jobs ++ [{ job₀ with private_args := mkPrivateArgs l }])
      else
        forwardModelLoop subst addFromString installed config_file rest errors
          (jobs ++ [job₀])

/-- The `SIMULATION_JOB` loop of `read_forward_model`: direct invocations,
the remaining tokens becoming the job's positional `arglist`. -/
def simulationJobLoop (installed : List (String × ExtJob)) (config_file : String) :
    List (List String) → List CVE → List ExtJob → List CVE × List ExtJob
  | [], errors, jobs => (errors, jobs)
  | job_description :: rest, errors, jobs =>
    let name := job_description.headD ""
    match alistGet installed name with
    | none =>
      simulationJobLoop installed config_file rest
        (errors ++ [mkCVE ("Could not find job " ++ pyRepr name
            ++ " in list of installed jobs.") (some config_file)])
        jobs
    | some job₀ =>
      simulationJobLoop installed config_file rest errors
        (jobs ++ [{ job₀ with arglist := job_description.tail }])

/-- Error/result pair of `read_forward_model` before the final raise. -/
def readForwardModelAux (subst : String → String)
    (addFromString : String → Except String (List (String × String)))
    (installed : List (String × ExtJob)) (config_dict : ConfigDict)
    (config_file : String) : List CVE × List ExtJob :=
  let (errors, jobs) :=
    forwardModelLoop subst addFromString installed config_file
      (config_dict.FORWARD_MODEL.getD []) [] []
  simulationJobLoop installed config_file
    (config_dict.SIMULATION_JOB.getD []) errors jobs

/-- `ErtConfig.read_forward_model`: aggregate all lookup/argument errors,
raising them together only after both loops; on success the resolved,
ordered job list. -/
def read_forward_model (subst : String → String)
    (addFromString : String → Except String (List (String × String)))
    (installed : List (String × ExtJob)) (config_dict : ConfigDict)
    (config_file : String) : Except CVE (List ExtJob) :=
  let (errors, jobs) :=
    readForwardModelAux subst addFromString installed config_dict config_file
  if errors ≠ [] then .error (fromCollected (errors.map .inr))
  else .ok jobs

/-! ## Workflow and hook loading (`ErtConfig._workflows_from_dict`) -/

/-- `LOAD_WORKFLOW_JOB` loop: script-load failures warn and skip, declaration
errors are collected, successes are registered under the job's name. -/
def workflowJobsLoop (ext : Externals) :
    List (List String) → List String → List ErrorInfo → List (String × WorkflowJob) →
      List String × List ErrorInfo × List (String × WorkflowJob)
  | [], warns, errors, workflow_jobs => (warns, errors, workflow_jobs)
  | workflow_job :: rest, warns, errors, workflow_jobs =>
    let path := workflow_job.headD ""
    let nameArg := if workflow_job.length = 1 then none else workflow_job.get? 1
    match ext.workflowJobFromFile path nameArg with
    | .ok new_job =>
      workflowJobsLoop ext rest warns errors (alistSet workflow_jobs new_job.name new_job)
    | .error (.scriptLoad msg) =>
      workflowJobsLoop ext rest
        (warns ++ ["Loading workflow job " ++ pyRepr path ++ " failed with '"
            ++ msg ++ "'. It will not be loaded."])
        errors workflow_jobs
    | .error (.cve e) =>
      workflowJobsLoop ext rest warns
        (errors ++ [{ message := cveMessage e, filename := some path,
                      context := some path }])
        workflow_jobs

/-- Inner file loop of the `WORKFLOW_JOB_DIRECTORY` handling. -/
def workflowJobDirFilesLoop (ext : Externals) (job_path : String) :
    List String → List String → List ErrorInfo → List (String × WorkflowJob) →
      List String × List ErrorInfo × List (String × WorkflowJob)
  | [], warns, errors, workflow_jobs => (warns, errors, workflow_jobs)
  | file_name :: rest, warns, errors, workflow_jobs =>
    let full_path := pathJoin job_path file_name
    match ext.workflowJobFromFile full_path none with
    | .ok new_job =>
      workflowJobDirFilesLoop ext job_path rest warns errors
        (alistSet workflow_jobs new_job.name new_job)
    | .error (.scriptLoad msg) =>
      workflowJobDirFilesLoop ext job_path rest
        (warns ++ ["Loading workflow job " ++ pyRepr full_path ++ " failed with '"
            ++ msg ++ "'. It will not be loaded."])
        errors workflow_jobs
    | .error (.cve e) =>
      workflowJobDirFilesLoop ext job_path rest warns
        (errors ++ [{ message := cveMessage e, filename := some full_path,
                      context := some job_path }])
        workflow_jobs

/-- `WORKFLOW_JOB_DIRECTORY` loop: a missing directory warns and is skipped. -/
def workflowJobDirsLoop (ext : Externals) :
    List String → List String → List ErrorInfo → List (String × WorkflowJob) →
      List String × List ErrorInfo × List (String × WorkflowJob)
  | [], warns, errors, workflow_jobs => (warns, errors, workflow_jobs)
  | job_path :: rest, warns, errors, workflow_jobs =>
    if ¬ ext.isdir job_path then
      workflowJobDirsLoop ext rest
        (warns ++ ["Unable to open job directory " ++ job_path]) errors workflow_jobs
    else
      let (warns', errors', wj') :=
        workflowJobDirFilesLoop ext job_path (ext.listdir job_path)
          warns errors workflow_jobs
      workflowJobDirsLoop ext rest warns' errors' wj'

/-- POSIX `os.path.basename`. -/
def baseName (p : String) : String :=
  String.mk ((splitOnChar '/' p.data).getLastD [])

/-- `LOAD_WORKFLOW` loop: workflow files failing to load warn and are
skipped; re-loading an existing name overwrites it with a warning. -/
def loadWorkflowsLoop (ext : Externals) (substitution_list : SubstitutionList)
    (workflow_jobs : List (String × WorkflowJob)) :
    List (List String) → List String → List (String × Workflow) →
      List String × List (String × Workflow)
  | [], warns, workflows => (warns, workflows)
  | work :: rest, warns, workflows =>
    let filename := if work.length = 1 then baseName (work.headD "") else work.getD 1 ""
    let existed := (alistGet workflows filename).isSome
    match ext.workflowFromFile (work.headD "") substitution_list workflow_jobs with
    | .ok wf =>
      let workflows := alistSet workflows filename wf
      let warns :=
        if existed then warns ++ ["Workflow " ++ pyRepr filename ++ " was added twice"]
        else warns
      loadWorkflowsLoop ext substitution_list workflow_jobs rest warns workflows
    | .error err =>
      loadWorkflowsLoop ext substitution_list workflow_jobs rest
        (warns ++ ["Encountered the following error(s) while reading workflow "
            ++ pyRepr filename ++ ". It will not be loaded: " ++ cveMessage err])
        workflows

/-- The `HOOK_WORKFLOW` loop: an unrecognized run mode or a hook naming a
workflow that was not loaded contributes an error and registers nothing;
valid bindings append `(mode, workflow)` in declaration order. -/
def hookWorkflowsLoop (hasRuntime : String → Bool)
    (workflows : List (String × Workflow)) :
    List (String × String) → List ErrItem → List (String × Workflow) →
      List ErrItem × List (String × Workflow)
  | [], errors, hooked => (errors, hooked)
  | (hook_name, mode_name) :: rest, errors, hooked =>
    if ¬ hasRuntime mode_name then
      hookWorkflowsLoop hasRuntime workflows rest
        (errors ++ [.inr (mkCVE ("Run mode " ++ pyRepr mode_name
            ++ " not supported for Hook Workflow"))])
        hooked
    else
      match alistGet workflows hook_name with
      | none =>
        hookWorkflowsLoop hasRuntime workflows rest
          (errors ++ [.inl (ErrorInfo.mk
            ("Cannot setup hook for non-existing job name " ++ pyRepr hook_name)
            none (some hook_name))])
          hooked
      | some wf =>
        hookWorkflowsLoop hasRuntime workflows rest errors (hooked ++ [(mode_name, wf)])

/-- `ErtConfig._workflows_from_dict`: warnings plus either the triple
`(workflow_jobs, workflows, hooked_workflows)` or the aggregated errors of
whichever of its two raise points fired first. -/
def workflows_from_dict (ext : Externals) (content_dict : ConfigDict)
    (substitution_list : SubstitutionList) :
    List String ×
      Except CVE (List (String × WorkflowJob) × List (String × Workflow) ×
        List (String × Workflow)) :=
  let (warns, errors, workflow_jobs) :=
    workflowJobsLoop ext (content_dict.LOAD_WORKFLOW_JOB.getD []) [] [] []
  let (warns, errors, workflow_jobs) :=
    workflowJobDirsLoop ext (content_dict.WORKFLOW_JOB_DIRECTORY.getD [])
      warns errors workflow_jobs
  if errors ≠ [] then (warns, .error (fromCollected (errors.map .inl)))
  else
    let (warns, workflows) :=
      loadWorkflowsLoop ext substitution_list workflow_jobs
        (content_dict.LOAD_WORKFLOW.getD []) warns []
    let (hook_errors, hooked_workflows) :=
      hookWorkflowsLoop ext.hasHookRuntime workflows
        (content_dict.HOOK_WORKFLOW.getD []) [] []
    if hook_errors ≠ [] then (warns, .error (fromCollected hook_errors))
    else (warns, .ok (workflow_jobs, workflows, hooked_workflows))

/-! ## Environment filtering (`Substituter.filter_env_dict` inside
`ErtConfig.forward_model_data_to_json`) -/

/-- Dict-style insert allowing `Option`-valued entries (Python dict with
possibly-`None` values). -/
def envSet (l : List (String × Option String)) (k : String) (v : Option String) :
    List (String × Option String) :=
  if l.any (fun kv => kv.1 = k) then
    l.map fun kv => if kv.1 = k then (k, v) else kv
  else l ++ [(k, v)]

/-- One pass of `filter_env_dict` over the entries: substitute key and value,
keep `None` values, keep values not of the shape `<...>` (first character `<`
and last `>`), drop delimited values with a warning.  An empty substituted
value indexes `new_value[0]`, an uncaught `IndexError` (`Except.error ()`). -/
def filterEnvLoop (subst : String → String) :
    List (String × Option String) → List String → List (String × Option String) →
      Except Unit (List String × List (String × Option String))
  | [], warns, result => .ok (warns, result)
  | (key, value) :: rest, warns, result =>
    let new_key := subst key
    match value with
    | none => filterEnvLoop subst rest warns (envSet result new_key none)
    | some v =>
      let new_value := subst v
      if new_value = "" then .error ()
      else if ¬ (new_value.data.head? = some '<' ∧ new_value.data.getLast? = some '>') then
        filterEnvLoop subst rest warns (envSet result new_key (some new_value))
      else
        filterEnvLoop subst rest
          (warns ++ ["Environment variable " ++ new_key
              ++ " skipped due to unmatched define " ++ new_value])
          result

/-- `Substituter.filter_env_dict`: the filtered mapping, with an empty
result replaced by the explicit absent marker `none` (`null` in
`jobs.json`). -/
def filter_env_dict (subst : String → String)
    (d : List (String × Option String)) :
    Except Unit (List String × Option (List (String × Option String))) := do
  let (warns, result) ← filterEnvLoop subst d [] []
  if result = [] then .ok (warns, none)
  else .ok (warns, some result)

/-! ## The resolved configuration (`ErtConfig`) -/

/-- The `ErtConfig` dataclass: one field per attribute of the Python class,
in declaration order.  `config_path` is the derived attribute set by
`__post_init__`. -/
structure ErtConfig where
  substitution_list : SubstitutionList := []
  ensemble_config : EnsembleConfig := {}
  ens_path : String := DEFAULT_ENSPATH
  env_vars : List (String × String) := []
  random_seed : Option String := none
  analysis_config : AnalysisConfig := {}
  queue_config : QueueConfig := {}
  workflow_jobs : List (String × WorkflowJob) := []
  workflows : List (String × Workflow) := []
  hooked_workflows : List (String × Workflow) := []
  runpath_file : String := DEFAULT_RUNPATH_FILE
  ert_templates : List (List String) := []
  installed_jobs : List (String × ExtJob) := []
  forward_model_list : List ExtJob := []
  model_config : Option ModelConfig := none
  user_config_file : String := "no_config"
  config_path : String := ""
  warning_infos : List WarningInfo := []
  deriving DecidableEq, Inhabited

/-- A Python object handed to `ErtConfig.__eq__`: either another `ErtConfig`
or a value of any other type. -/
inductive PyObject where
  | ertConfig (c : ErtConfig)
  | nonErtConfig
  deriving Inhabited

/-- Field-by-field comparison over every attribute except the ignored
`warning_infos`, as `ErtConfig.__eq__` performs via `vars(self)`. -/
def ertConfigBeqIgnoringWarnings (a b : ErtConfig) : Bool :=
  decide (a.substitution_list = b.substitution_list) &&
  decide (a.ensemble_config = b.ensemble_config) &&
  decide (a.ens_path = b.ens_path) &&
  decide (a.env_vars = b.env_vars) &&
  decide (a.random_seed = b.random_seed) &&
  decide (a.analysis_config = b.analysis_config) &&
  decide (a.queue_config = b.queue_config) &&
  decide (a.workflow_jobs = b.workflow_jobs) &&
  decide (a.workflows = b.workflows) &&
  decide (a.hooked_workflows = b.hooked_workflows) &&
  decide (a.runpath_file = b.runpath_file) &&
  decide (a.ert_templates = b.ert_templates) &&
  decide (a.installed_jobs = b.installed_jobs) &&
  decide (a.forward_model_list = b.forward_model_list) &&
  decide (a.model_config = b.model_config) &&
  decide (a.user_config_file = b.user_config_file) &&
  decide (a.config_path = b.config_path)

/-- `ErtConfig.__eq__`: `False` for non-`ErtConfig` values, otherwise all
attributes but `warning_infos` must agree. -/
def ertConfig_eq (self : ErtConfig) (other : PyObject) : Bool :=
  match other with
  | .nonErtConfig => false
  | .ertConfig b => ertConfigBeqIgnoringWarnings self b

/-- POSIX `os.path.dirname`. -/
def dirName (p : String) : String :=
  let pre := (p.data.reverse.dropWhile (· ≠ '/')).reverse
  if pre.all (· = '/') then String.mk pre
  else String.mk ((pre.reverse.dropWhile (· = '/')).reverse)

/-- `__post_init__`: `config_path` is the directory of the absolute
`user_config_file`, or the working directory for an empty one. -/
def postInitConfigPath (ext : Externals) (user_config_file : String) : String :=
  if user_config_file ≠ "" then dirName (ext.abspath user_config_file)
  else ext.getcwd

/-- An uncaught exception escaping `ErtConfig.from_dict`: a
`ConfigValidationError` or the `TypeError` of a multi-token
`QUEUE_OPTION MAX_RUNNING` value. -/
inductive PyFail where
  | cve (e : CVE)
  | typeError
  deriving DecidableEq

/-- `ErtConfig.from_dict`.  Follows the source's control flow: seed the
substitution table, collect the dictionary-shape and queue-option errors and
raise them together; build the ensemble config; accumulate the GEN_KW,
model-config, workflow and job-installation errors and raise them together;
then evaluate the remaining constructor arguments (any of which may itself
raise) and assemble the dataclass. -/
def from_dict (ext : Externals) (config_dict : ConfigDict) :
    Except PyFail ErtConfig := do
  let substitution_list := ext.substitutionFromDict config_dict
  let runpath_file := config_dict.RUNPATH_FILE.getD DEFAULT_RUNPATH_FILE
  let substitution_list := slSet substitution_list "<RUNPATH_FILE>" runpath_file
  let config_dir := (slGet substitution_list "<CONFIG_PATH>").getD ""
  let config_file := (slGet substitution_list "<CONFIG_FILE>").getD "no_config"
  let config_file_path := pathJoin config_dir config_file
  let qomrErrors ←
    match validate_queue_option_max_running config_file config_dict with
    | .error () => throw PyFail.typeError
    | .ok es => pure es
  let errors := validate_dict config_dict config_file ++ qomrErrors
  if errors ≠ [] then throw (.cve (fromCollected (errors.map .inl)))
  let ensemble_config ←
    (ext.ensembleFromDict config_dict).mapError PyFail.cve
  let ensembleErrors ←
    (validate_ensemble_config config_file config_dict).mapError PyFail.cve
  let errors : List ErrItem := ensembleErrors.map .inr
  let (model_config, substitution_list, errors) :=
    match ext.modelConfigFromDict ensemble_config.refcase config_dict with
    | .ok mc =>
      let sl := slSet substitution_list "<RUNPATH>" mc.runpath_format_string
      let sl := slSet sl "<ECL_BASE>" mc.eclbase_format_string
      let sl := slSet sl "<ECLBASE>" mc.eclbase_format_string
      (some mc, sl, errors)
    | .error e => (none, substitution_list, errors ++ [(Sum.inr e : ErrItem)])
  let (_wfWarns, wfResult) := workflows_from_dict ext config_dict substitution_list
  let (wfTriple, errors) :=
    match wfResult with
    | .ok t => (t, errors)
    | .error e => ((([], [], []) : List (String × WorkflowJob) ×
        List (String × Workflow) × List (String × Workflow)), errors ++ [(Sum.inr e : ErrItem)])
  let (_ijWarns, ijResult) := installed_jobs_from_dict ext config_dict
  let (installed_jobs, errors) :=
    match ijResult with
    | .ok jobs => (jobs, errors)
    | .error e => (([] : List (String × ExtJob)), errors ++ [(Sum.inr e : ErrItem)])
  if errors ≠ [] then throw (.cve (fromCollected errors))
  let env_vars := (config_dict.SETENV.getD []).foldl
    (fun acc kv => dictSet acc kv.1 kv.2) ([] : List (String × String))
  let warning_infos := config_dict.warning_infos.getD []
  let analysis_config ← (ext.analysisFromDict config_dict).mapError PyFail.cve
  let queue_config ← (ext.queueFromDict config_dict).mapError PyFail.cve
  let ert_templates ← (read_templates ext config_dict).mapError PyFail.cve
  let forward_model_list ←
    (read_forward_model (ext.substitute substitution_list) ext.addFromString
      installed_jobs config_dict config_file).mapError PyFail.cve
  .ok
    { substitution_list := substitution_list
      ensemble_config := ensemble_config
      ens_path := config_dict.ENSPATH.getD DEFAULT_ENSPATH
      env_vars := env_vars
      random_seed := config_dict.RANDOM_SEED
      analysis_config := analysis_config
      queue_config := queue_config
      workflow_jobs := wfTriple.1
      workflows := wfTriple.2.1
      hooked_workflows := wfTriple.2.2
      runpath_file := runpath_file
      ert_templates := ert_templates
      installed_jobs := installed_jobs
      forward_model_list := forward_model_list
      model_config := model_config
      user_config_file := config_file_path
      config_path := postInitConfigPath ext config_file_path
      warning_infos := warning_infos }

/-! ## Reference-semantics model of `read_forward_model`'s deep copy

Python objects live on a heap and `installed_jobs[job_name]` is a reference
into the registry.  To make `copy.deepcopy` observable we re-run the
`FORWARD_MODEL` loop over an explicit store: addresses are indices into a
list of `ExtJob` values, the registry maps names to addresses, and
`copy.deepcopy` allocates a fresh address holding the registry object's
value.  Attaching a private argument scope to an invocation is then an
in-place update at that invocation's address. -/

/-- In-place field update at an address: `job.private_args = args` on the
object stored at `addr`. -/
def storeSetPrivateArgs (store : List ExtJob) (addr : Nat)
    (args : SubstitutionList) : List ExtJob :=
  match store.get? addr with
  | none => store
  | some job => store.set addr { job with private_args := args }

/-- The `FORWARD_MODEL` loop of `read_forward_model` over the explicit
store.  Each successful lookup deep-copies: the fresh address
`store.length` receives the registry object's value (with the private
argument scope attached when arguments were given, which mutates only the
fresh copy) and is appended to the invocation list.  Failed lookups and
malformed argument strings collect errors exactly as in the pure model;
their abandoned copies are unreachable and elided. -/
def forwardModelLoopAlloc (subst : String → String)
    (addFromString : String → Except String (List (String × String)))
    (registry : List (String × Nat)) (config_file : String) :
    List FMEntry → List ExtJob → List CVE → List Nat →
      List ExtJob × List CVE × List Nat
  | [], store, errors, invocations => (store, errors, invocations)
  | entry :: rest, store, errors, invocations =>
    let (unsubstituted_job_name, args) := fmEntryParts entry
    let job_name := subst unsubstituted_job_name
    match alistGet registry job_name with
    | none =>
      forwardModelLoopAlloc subst addFromString registry config_file rest store
        (errors ++ [mkCVE ("Could not find job " ++ pyRepr job_name
            ++ " in list of installed jobs: "
            ++ pyReprList (registry.map Prod.fst)) (some config_file)])
        invocations
    | some addr =>
      let copied := store.getD addr default
      if argsTruthy args then
        match args with
        | .fromString s =>
          match addFromString s with
          | .error err =>
            forwardModelLoopAlloc subst addFromString registry config_file rest store
              (errors ++ [mkCVE (err ++ ": 'FORWARD_MODEL " ++ job_name
                  ++ "(" ++ s ++ ")'") (some config_file)])
              invocations
          | .ok parsed =>
            forwardModelLoopAlloc subst addFromString registry config_file rest
              (store ++ [{ copied with private_args := mkPrivateArgs parsed }])
              errors (invocations ++ [store.length])
        | .pairs l =>
          forwardModelLoopAlloc subst addFromString registry config_file rest
            (store ++ [{ copied with private_args := mkPrivateArgs l }])
            errors (invocations ++ [store.length])
      else
        forwardModelLoopAlloc subst addFromString registry config_file rest
          (store ++ [copied]) errors (invocations ++ [store.length])

/-! ## Theorems -/

lemma pathJoin_rel (a b : String) (hb : isAbs b = false) (ha : a ≠ "")
    (ha2 : endsWithSlash a = false) : pathJoin a b = a ++ "/" ++ b := by
  unfold pathJoin
  simp [hb, ha, ha2]

/-- C6: for a user configuration lacking `ENSPATH`,
`apply_config_content_defaults` sets the ensemble path to
`<config_dir>/storage` (a declared one is untouched); a missing
`RUNPATH_FILE` becomes `<config_dir>/.ert_runpath_list`; a declared
relative `RUNPATH_FILE` is resolved (normalized) relative to the config
directory; a declared absolute one is left unchanged. -/
theorem apply_config_content_defaults_c6 (cd : ConfigDict) (config_dir : String)
    (hne : config_dir ≠ "") (hslash : endsWithSlash config_dir = false) :
    (cd.ENSPATH = none →
      (apply_config_content_defaults cd config_dir).ENSPATH =
        some (config_dir ++ "/storage")) ∧
    (∀ e, cd.ENSPATH = some e →
      (apply_config_content_defaults cd config_dir).ENSPATH = some e) ∧
    (cd.RUNPATH_FILE = none →
      (apply_config_content_defaults cd config_dir).RUNPATH_FILE =
        some (config_dir ++ "/.ert_runpath_list")) ∧
    (∀ rp, cd.RUNPATH_FILE = some rp → isAbs rp = false →
      (apply_config_content_defaults cd config_dir).RUNPATH_FILE =
        some (normpath (config_dir ++ "/" ++ rp))) ∧
    (∀ rp, cd.RUNPATH_FILE = some rp → isAbs rp = true →
      (apply_config_content_defaults cd config_dir).RUNPATH_FILE = some rp) := by
  have hs1 : ("/" : String) ++ "storage" = "/storage" := by decide
  have hs2 : ("/" : String) ++ ".ert_runpath_list" = "/.ert_runpath_list" := by decide
  have hj1 : pathJoin config_dir "storage" = config_dir ++ "/storage" := by
    rw [pathJoin_rel _ _ (by decide) hne hslash, String.append_assoc, hs1]
  have hj2 : pathJoin config_dir ".ert_runpath_list" =
      config_dir ++ "/.ert_runpath_list" := by
    rw [pathJoin_rel _ _ (by decide) hne hslash, String.append_assoc, hs2]
  refine ⟨?_, ?_, ?_, ?_, ?_⟩
  · intro hE
    unfold apply_config_content_defaults DEFAULT_ENSPATH
    cases hR : cd.RUNPATH_FILE <;> simp [hE, hR, hj1]
    split <;> rfl
  · intro e hE
    unfold apply_config_content_defaults
    cases hR : cd.RUNPATH_FILE <;> simp [hE, hR]
    split <;> first | rfl | simp [hE]
  · intro hR
    unfold apply_config_content_defaults DEFAULT_RUNPATH_FILE
    cases hE : cd.ENSPATH <;> simp [hE, hR, hj2]
  · intro rp hR habs
    unfold apply_config_content_defaults
    cases hE : cd.ENSPATH <;>
      simp [hE, hR, habs, pathJoin_rel _ _ habs hne hslash]
  · intro rp hR habs
    unfold apply_config_content_defaults
    cases hE : cd.ENSPATH <;> simp [hE, hR, habs]

/-- Witness for C6 at a concrete configuration and directory. -/
theorem apply_config_content_defaults_c6_witness :
    (apply_config_content_defaults { RUNPATH_FILE := some "rel/rp" } "/proj").ENSPATH
      = some "/proj/storage" ∧
    (apply_config_content_defaults { RUNPATH_FILE := some "rel/rp" } "/proj").RUNPATH_FILE
      = some (normpath ("/proj" ++ "/" ++ "rel/rp")) ∧
    (apply_config_content_defaults
        { ENSPATH := some "/e", RUNPATH_FILE := some "/abs/rp" } "/proj").RUNPATH_FILE
      = some "/abs/rp" :=
  ⟨(apply_config_content_defaults_c6 _ "/proj" (by decide) (by decide)).1 rfl,
   ((apply_config_content_defaults_c6 _ "/proj" (by decide) (by decide)).2.2.2.1)
     "rel/rp" rfl (by decide),
   ((apply_config_content_defaults_c6 _ "/proj" (by decide) (by decide)).2.2.2.2)
     "/abs/rp" rfl (by decide)⟩

lemma qomr_append (path : String) (e1 e2 : List (List String))
    (es1 es2 : List ErrorInfo)
    (h1 : validateQOMREntries path e1 = .ok es1)
    (h2 : validateQOMREntries path e2 = .ok es2) :
    validateQOMREntries path (e1 ++ e2) = .ok (es1 ++ es2) := by
  induction e1 generalizing es1 with
  | nil =>
    simp [validateQOMREntries] at h1
    subst h1
    simpa using h2
  | cons entry rest ih =>
    rw [List.cons_append]
    cases hr : validateQOMREntries path rest with
    | error e =>
      rw [validateQOMREntries] at h1
      simp [hr, Except.bind, bind] at h1
    | ok tr =>
      have hre : validateQOMREntries path (rest ++ e2) = .ok (tr ++ es2) := ih tr hr
      rw [validateQOMREntries] at h1 ⊢
      simp only [hr, hre, bind, Except.bind] at h1 ⊢
      rcases entry with _ | ⟨q, _ | ⟨opt, values⟩⟩
      · simp at h1
      · simp at h1
      · by_cases hopt : opt = "MAX_RUNNING"
        · simp only [hopt, if_pos rfl] at h1 ⊢
          cases hpi : pyIntStar values with
          | error e =>
            simp [hpi, Except.bind, bind] at h1
          | ok vo =>
            simp only [hpi, bind, Except.bind] at h1 ⊢
            cases vo with
            | none =>
              simp at h1 ⊢
              subst h1
              simp
            | some n =>
              by_cases hn : n < 0
              · simp [hn] at h1 ⊢
                subst h1
                simp
              · simp [hn] at h1 ⊢
                subst h1
                simp
        · simp [hopt] at h1 ⊢
          subst h1
          simp

/-- C9: a `QUEUE_OPTION MAX_RUNNING` entry produces an error precisely when
its value does not parse as an integer or parses to a negative integer;
non-negative integers produce no error; and the errors of all offending
entries are returned together as one list. -/
theorem validate_queue_option_max_running_c9 :
    (∀ path q v, ∃ es,
      validate_queue_option_max_running path
          { QUEUE_OPTION := some [[q, "MAX_RUNNING", v]] } = .ok es ∧
      (es ≠ [] ↔ (pyInt v = none ∨ ∃ n, pyInt v = some n ∧ n < 0))) ∧
    (∀ path e1 e2 es1 es2,
      validateQOMREntries path e1 = .ok es1 →
      validateQOMREntries path e2 = .ok es2 →
      validateQOMREntries path (e1 ++ e2) = .ok (es1 ++ es2)) := by
  constructor
  · intro path q v
    unfold validate_queue_option_max_running
    cases hv : pyInt v with
    | none =>
      refine ⟨[{ message := "QUEUE_OPTION MAX_RUNNING is not an integer: " ++ pyRepr v,
                 filename := some path, context := some v }], ?_, by simp [hv]⟩
      simp [validateQOMREntries, pyIntStar, hv, bind, Except.bind]
    | some n =>
      by_cases hn : n < 0
      · refine ⟨[{ message := "QUEUE_OPTION MAX_RUNNING is negative: " ++ pyRepr v,
                   filename := some path, context := some v }], ?_, ?_⟩
        · simp [validateQOMREntries, pyIntStar, hv, hn, bind, Except.bind]
        · simp only [ne_eq, List.cons_ne_nil, not_false_eq_true, true_iff]
          exact Or.inr ⟨n, rfl, hn⟩
      · refine ⟨[], ?_, ?_⟩
        · simp [validateQOMREntries, pyIntStar, hv, hn, bind, Except.bind]
        · simp [hv, hn]
  · exact fun path e1 e2 es1 es2 h1 h2 => qomr_append path e1 e2 es1 es2 h1 h2

/-- Witness for C9. -/
theorem validate_queue_option_max_running_c9_witness :
    validateQOMREntries "f.ert"
        ([["LOCAL", "MAX_RUNNING", "-1"]] ++ [["LOCAL", "MAX_RUNNING", "5"]]) =
      .ok ([{ message := "QUEUE_OPTION MAX_RUNNING is negative: '-1'",
              filename := some "f.ert", context := some "-1" }] ++ []) ∧
    ∃ es, validate_queue_option_max_running "f.ert"
        { QUEUE_OPTION := some [["LOCAL", "MAX_RUNNING", "xyz"]] } = .ok es ∧
      (es ≠ [] ↔ (pyInt "xyz" = none ∨ ∃ n, pyInt "xyz" = some n ∧ n < 0)) :=
  ⟨validate_queue_option_max_running_c9.2 "f.ert" _ _ _ _ (by decide) (by decide),
   validate_queue_option_max_running_c9.1 "f.ert" "LOCAL" "xyz"⟩


/-- C10: `ErtConfig.__eq__` ignores `warning_infos` — two configurations
agreeing on every other attribute compare equal whatever their warning
lists — and comparing with a non-`ErtConfig` value returns `False`. -/
theorem ertConfig_eq_c10 :
    (∀ a b : ErtConfig,
      a.substitution_list = b.substitution_list →
      a.ensemble_config = b.ensemble_config →
      a.ens_path = b.ens_path →
      a.env_vars = b.env_vars →
      a.random_seed = b.random_seed →
      a.analysis_config = b.analysis_config →
      a.queue_config = b.queue_config →
      a.workflow_jobs = b.workflow_jobs →
      a.workflows = b.workflows →
      a.hooked_workflows = b.hooked_workflows →
      a.runpath_file = b.runpath_file →
      a.ert_templates = b.ert_templates →
      a.installed_jobs = b.installed_jobs →
      a.forward_model_list = b.forward_model_list →
      a.model_config = b.model_config →
      a.user_config_file = b.user_config_file →
      a.config_path = b.config_path →
      ertConfig_eq a (.ertConfig b) = true) ∧
    (∀ a : ErtConfig, ertConfig_eq a .nonErtConfig = false) := by
  constructor
  · intro a b h1 h2 h3 h4 h5 h6 h7 h8 h9 h10 h11 h12 h13 h14 h15 h16 h17
    simp [ertConfig_eq, ertConfigBeqIgnoringWarnings,
      h1, h2, h3, h4, h5, h6, h7, h8, h9, h10, h11, h12, h13, h14, h15, h16, h17]
  · intro a
    rfl

/-- Witness for C10: two configurations with different warning lists compare
equal, and a non-`ErtConfig` object compares unequal. -/
theorem ertConfig_eq_c10_witness :
    ertConfig_eq { warning_infos := [{ message := "w" }] }
      (.ertConfig { warning_infos := [] }) = true ∧
    ertConfig_eq {} .nonErtConfig = false :=
  ⟨ertConfig_eq_c10.1 _ _ rfl rfl rfl rfl rfl rfl rfl rfl rfl rfl rfl rfl rfl
      rfl rfl rfl rfl,
   ertConfig_eq_c10.2 {}⟩


/-- Modelled from the spec: the fixed enumeration of lifecycle stages of the
external `HookRuntime` enumeration referenced by hook declarations. -/
def specHookRuntimeNames : List String :=
  ["PRE_SIMULATION", "POST_SIMULATION", "PRE_FIRST_UPDATE", "PRE_UPDATE",
   "POST_UPDATE"]

/-- A concrete instantiation of the external collaborators, used to evaluate
the embedded functions at concrete inputs: identity substitution and paths,
trivial sub-config constructors, an empty filesystem. -/
def baseExternals : Externals where
  substitutionFromDict := fun _ => []
  substitute := fun _ s => s
  addFromString := fun _ => .ok []
  ensembleFromDict := fun _ => .ok {}
  modelConfigFromDict := fun _ _ => .ok {}
  analysisFromDict := fun _ => .ok {}
  queueFromDict := fun _ => .ok {}
  workflowJobFromFile := fun _ _ => .ok {}
  workflowFromFile := fun _ _ _ => .ok {}
  extJobFromConfigFile := fun _ _ => .ok {}
  hasHookRuntime := fun s => specHookRuntimeNames.contains s
  isdir := fun _ => false
  listdir := fun _ => []
  isfile := fun _ => false
  abspath := fun p => p
  getcwd := "/cwd"
  checkNonUtf8 := fun _ => .ok ()

/-- Externals whose job loader returns distinct executables for the two
declaration files of the duplicate-installation scenario. -/
def dupJobExternals : Externals :=
  { baseExternals with
    extJobFromConfigFile := fun n p =>
      .ok { name := n.getD "",
            executable := if p = "/jobs/f1.job" then "/bin/echo1" else "/bin/echo2" } }

/-- C5 counterexample: installing `a` from `/jobs/f1.job` (executable
`/bin/echo1`) and again from `/jobs/f2.job` emits exactly one duplicate
warning, but that warning does not name the first declaration's source path
`/jobs/f1.job` — it names the old job's executable instead, so the claim's
"naming both the old and the new source paths" fails. -/
theorem installed_jobs_from_dict_c5_counterexample :
    (installed_jobs_from_dict dupJobExternals
        { INSTALL_JOB := some [("a", "/jobs/f1.job"), ("a", "/jobs/f2.job")] }).1 =
      ["Duplicate forward model job with name 'a', choosing '/jobs/f2.job' over '/bin/echo1'"] ∧
    containsSub "/jobs/f1.job".data
      "Duplicate forward model job with name 'a', choosing '/jobs/f2.job' over '/bin/echo1'".data
      = false := by
  decide

/-- C5 (amended): installing two job declarations with the same name keeps
the second declaration's definition, never errors, and emits exactly one
duplicate-name warning — naming the job name, the new declaration's
(absolutized) source path, and the executable of the job being replaced. -/
theorem installed_jobs_from_dict_c5 (ext : Externals) (name p1 p2 : String)
    (j1 j2 : ExtJob)
    (h1 : ext.extJobFromConfigFile (some name) (ext.abspath p1) = .ok j1)
    (h2 : ext.extJobFromConfigFile (some name) (ext.abspath p2) = .ok j2) :
    installed_jobs_from_dict ext { INSTALL_JOB := some [(name, p1), (name, p2)] } =
      ([duplicateJobWarning name (ext.abspath p2) j1.executable], .ok [(name, j2)]) := by
  unfold installed_jobs_from_dict
  simp [installJobsLoop, installJobDirsLoop, h1, h2, alistGet, alistSet]

/-- Witness for the amended C5 at concrete declarations. -/
theorem installed_jobs_from_dict_c5_witness :
    installed_jobs_from_dict dupJobExternals
        { INSTALL_JOB := some [("a", "/jobs/f1.job"), ("a", "/jobs/f2.job")] } =
      ([duplicateJobWarning "a" (dupJobExternals.abspath "/jobs/f2.job") "/bin/echo1"],
       .ok [("a", { name := "a", executable := "/bin/echo2" })]) :=
  installed_jobs_from_dict_c5 dupJobExternals "a" "/jobs/f1.job" "/jobs/f2.job"
    { name := "a", executable := "/bin/echo1" }
    { name := "a", executable := "/bin/echo2" } (by decide) (by decide)


/-- A value survives the filter when it is `None` or not fully
angle-delimited. -/
def keptVal (v : Option String) : Prop :=
  ∀ s, v = some s →
    ¬ (s.data.head? = some '<' ∧ s.data.getLast? = some '>')

lemma envSet_mem {l : List (String × Option String)} {k : String}
    {v : Option String} :
    ∀ e ∈ envSet l k v, e = (k, v) ∨ e ∈ l := by
  intro e he
  unfold envSet at he
  split at he
  · rcases List.mem_map.mp he with ⟨kv, hkv, hekv⟩
    by_cases hk : kv.1 = k
    · simp [hk] at hekv
      exact Or.inl hekv.symm
    · simp [hk] at hekv
      exact Or.inr (hekv ▸ hkv)
  · rcases List.mem_append.mp he with h | h
    · exact Or.inr h
    · simp at h
      exact Or.inl h

lemma envSet_key_mem (l : List (String × Option String)) (k : String)
    (v : Option String) : k ∈ (envSet l k v).map Prod.fst := by
  unfold envSet
  split
  · rename_i hany
    rcases List.any_eq_true.mp hany with ⟨kv, hkv, hk⟩
    simp at hk
    refine List.mem_map.mpr ⟨(k, v), ?_, rfl⟩
    refine List.mem_map.mpr ⟨kv, hkv, ?_⟩
    simp [hk]
  · simp

lemma envSet_key_preserved {l : List (String × Option String)} {k' : String}
    (h : k' ∈ l.map Prod.fst) (k : String) (v : Option String) :
    k' ∈ (envSet l k v).map Prod.fst := by
  unfold envSet
  split
  · rcases List.mem_map.mp h with ⟨kv, hkv, hk⟩
    refine List.mem_map.mpr ?_
    by_cases he : kv.1 = k
    · exact ⟨(k, v), List.mem_map.mpr ⟨kv, hkv, by simp [he]⟩, by simp [← hk, he]⟩
    · exact ⟨kv, List.mem_map.mpr ⟨kv, hkv, by simp [he]⟩, hk⟩
  · simp [h]

lemma filterEnvLoop_spec (f : String → String) :
    ∀ (d : List (String × Option String)) warns0 res0 w r,
    filterEnvLoop f d warns0 res0 = .ok (w, r) →
    (∀ e ∈ r, e ∈ res0 ∨ keptVal e.2) ∧
    (∃ w', w = warns0 ++ w') ∧
    (∀ k v, (k, some v) ∈ d → (f v).data.head? = some '<' →
      (f v).data.getLast? = some '>' →
      ("Environment variable " ++ f k ++ " skipped due to unmatched define "
        ++ f v) ∈ w) ∧
    (∀ k' , k' ∈ res0.map Prod.fst → k' ∈ r.map Prod.fst) ∧
    (∀ k v, (k, v) ∈ d → keptVal (v.map f) → (f k) ∈ r.map Prod.fst) := by
  intro d
  induction d with
  | nil =>
    intro warns0 res0 w r h
    simp [filterEnvLoop] at h
    obtain ⟨hw, hr⟩ := h
    subst hw
    subst hr
    exact ⟨fun e he => Or.inl he, ⟨[], by simp⟩, by simp, fun k h => h, by simp⟩
  | cons kv rest ih =>
    intro warns0 res0 w r h
    obtain ⟨k₀, v₀⟩ := kv
    rw [filterEnvLoop.eq_def] at h
    cases v₀ with
    | none =>
      simp only at h
      obtain ⟨hi, hw, hdrop, hkeys, hkept⟩ := ih _ _ w r h
      refine ⟨?_, hw, ?_, ?_, ?_⟩
      · intro e he
        rcases hi e he with h' | h'
        · rcases envSet_mem e h' with h'' | h''
          · subst h''
            exact Or.inr (by intro s hs; cases hs)
          · exact Or.inl h''
        · exact Or.inr h'
      · intro k v hkv
        simp at hkv
        exact fun h1 h2 => hdrop k v hkv h1 h2
      · exact fun k' hk' => hkeys k' (envSet_key_preserved hk' _ _)
      · intro k v hkv hgood
        rcases List.mem_cons.mp hkv with h' | h'
        · obtain ⟨hk, hv⟩ := Prod.mk.injEq .. ▸ h'
          subst hk
          exact hkeys _ (envSet_key_mem _ _ _)
        · exact hkept k v h' hgood
    | some v =>
      simp only at h
      by_cases hemp : f v = ""
      · simp [hemp] at h
      · rw [if_neg hemp] at h
        by_cases hdel : (f v).data.head? = some '<' ∧ (f v).data.getLast? = some '>'
        · rw [if_neg (by simpa using hdel)] at h
          obtain ⟨hi, ⟨w', hw⟩, hdrop, hkeys, hkept⟩ := ih _ _ w r h
          refine ⟨hi, ⟨["Environment variable " ++ f k₀
              ++ " skipped due to unmatched define " ++ f v] ++ w', by
            rw [hw]; simp⟩, ?_, hkeys, ?_⟩
          · intro k u hku h1 h2
            rcases List.mem_cons.mp hku with h' | h'
            · obtain ⟨hk, hu⟩ := Prod.mk.injEq .. ▸ h'
              subst hk
              cases hu
              rw [hw]
              simp
            · exact hdrop k u h' h1 h2
          · intro k u hku hgood
            rcases List.mem_cons.mp hku with h' | h'
            · obtain ⟨hk, hu⟩ := Prod.mk.injEq .. ▸ h'
              subst hk
              subst hu
              exact absurd hdel (by simpa [keptVal] using hgood)
            · exact hkept k u h' hgood
        · rw [if_pos (by simpa using hdel)] at h
          obtain ⟨hi, hw, hdrop, hkeys, hkept⟩ := ih _ _ w r h
          refine ⟨?_, hw, ?_, ?_, ?_⟩
          · intro e he
            rcases hi e he with h' | h'
            · rcases envSet_mem e h' with h'' | h''
              · subst h''
                refine Or.inr ?_
                intro s hs
                cases hs
                exact hdel
              · exact Or.inl h''
            · exact Or.inr h'
          · intro k u hku h1 h2
            rcases List.mem_cons.mp hku with h' | h'
            · obtain ⟨hk, hu⟩ := Prod.mk.injEq .. ▸ h'
              subst hk
              cases hu
              exact absurd ⟨h1, h2⟩ hdel
            · exact hdrop k u h' h1 h2
          · exact fun k' hk' => hkeys k' (envSet_key_preserved hk' _ _)
          · intro k u hku hgood
            rcases List.mem_cons.mp hku with h' | h'
            · obtain ⟨hk, hu⟩ := Prod.mk.injEq .. ▸ h'
              subst hk
              subst hu
              exact hkeys _ (envSet_key_mem _ _ _)
            · exact hkept k u h' hgood



/-- C7 counterexample: with the identity substitution, the value `a<X>b`
still contains the unresolved macro `<X>` yet is passed through literally
(kept, no warning), because the code only drops values whose first character
is `<` and last is `>`. -/
theorem filter_env_dict_c7_counterexample :
    filter_env_dict (fun s => s) [("K", some "a<X>b")] =
      .ok ([], some [("K", some "a<X>b")]) ∧
    containsSub "<X>".data "a<X>b".data = true := by
  decide

/-- C7 (amended): in the emitted environment mappings, a substituted value
is dropped (with a warning) precisely when it is entirely delimited — first
character `<` and last `>`; values merely containing a delimiter elsewhere
are kept; and a mapping whose filtering leaves it empty is emitted as the
absent marker `none`, never as an empty mapping. -/
theorem filter_env_dict_c7 (f : String → String)
    (d : List (String × Option String)) (w : List String)
    (r : Option (List (String × Option String)))
    (h : filter_env_dict f d = .ok (w, r)) :
    (∀ l, r = some l → l ≠ []) ∧
    (∀ l, r = some l → ∀ k s, (k, some s) ∈ l →
      ¬ (s.data.head? = some '<' ∧ s.data.getLast? = some '>')) ∧
    (∀ k v, (k, some v) ∈ d → (f v).data.head? = some '<' →
      (f v).data.getLast? = some '>' →
      ("Environment variable " ++ f k ++ " skipped due to unmatched define "
        ++ f v) ∈ w) ∧
    (∀ k s, (k, some s) ∈ d →
      ¬ ((f s).data.head? = some '<' ∧ (f s).data.getLast? = some '>') →
      ∃ l, r = some l ∧ (f k) ∈ l.map Prod.fst) := by
  unfold filter_env_dict at h
  cases hl : filterEnvLoop f d [] [] with
  | error e =>
    rw [hl] at h
    simp [bind, Except.bind] at h
  | ok p =>
    obtain ⟨w0, res⟩ := p
    rw [hl] at h
    obtain ⟨hi, ⟨w', hw⟩, hdrop, hkeys, hkept⟩ := filterEnvLoop_spec f d [] [] w0 res hl
    by_cases hres : res = []
    · simp [bind, Except.bind, hres] at h
      obtain ⟨hww, hrr⟩ := h
      subst hww
      refine ⟨?_, ?_, ?_, ?_⟩
      · intro l hlr
        rw [← hrr] at hlr
        cases hlr
      · intro l hlr
        rw [← hrr] at hlr
        cases hlr
      · intro k v hkv h1 h2
        exact hdrop k v hkv h1 h2
      · intro k s hks hgood
        have := hkept k (some s) hks (by
          intro s' hs'
          simp at hs'
          rw [← hs']
          exact hgood)
        rw [hres] at this
        simp at this
    · simp [bind, Except.bind, hres] at h
      obtain ⟨hww, hrr⟩ := h
      subst hww
      refine ⟨?_, ?_, ?_, ?_⟩
      · intro l hlr
        rw [← hrr] at hlr
        cases hlr
        exact hres
      · intro l hlr
        rw [← hrr] at hlr
        cases hlr
        intro k s hks hdel
        rcases hi (k, some s) hks with h' | h'
        · cases h'
        · exact h' s rfl hdel
      · exact hdrop
      · intro k s hks hgood
        refine ⟨res, hrr.symm, ?_⟩
        exact hkept k (some s) hks (by
          intro s' hs'
          simp at hs'
          rw [← hs']
          exact hgood)

/-- Witness for the amended C7: a fully delimited value warns, and a kept
key appears in the emitted mapping. -/
theorem filter_env_dict_c7_witness :
    ("Environment variable " ++ "B" ++ " skipped due to unmatched define "
        ++ "<U>") ∈ ["Environment variable B skipped due to unmatched define <U>"] ∧
    ∃ l, (some [("A", some "ok")] : Option (List (String × Option String)))
        = some l ∧ ("A" : String) ∈ l.map Prod.fst :=
  have h := filter_env_dict_c7 (fun s => s) [("A", some "ok"), ("B", some "<U>")]
    ["Environment variable B skipped due to unmatched define <U>"]
    (some [("A", some "ok")]) (by decide)
  ⟨h.2.2.1 "B" "<U>" (by decide) (by decide) (by decide),
   h.2.2.2 "A" "ok" (by decide) (by decide)⟩


/-- Per-declaration error of the `HOOK_WORKFLOW` loop: an unrecognized run
mode or a missing workflow name produces the corresponding diagnostic. -/
def hookErrOf (hasRuntime : String → Bool) (workflows : List (String × Workflow))
    (hm : String × String) : Option ErrItem :=
  if ¬ hasRuntime hm.2 then
    some (.inr (mkCVE ("Run mode " ++ pyRepr hm.2
      ++ " not supported for Hook Workflow")))
  else
    match alistGet workflows hm.1 with
    | none => some (.inl (ErrorInfo.mk
        ("Cannot setup hook for non-existing job name " ++ pyRepr hm.1)
        none (some hm.1)))
    | some _ => none

/-- Per-declaration registered binding of the `HOOK_WORKFLOW` loop. -/
def hookBindOf (hasRuntime : String → Bool) (workflows : List (String × Workflow))
    (hm : String × String) : Option (String × Workflow) :=
  if hasRuntime hm.2 then
    (alistGet workflows hm.1).map (fun wf => (hm.2, wf))
  else none

lemma hookWorkflowsLoop_eq (hr : String → Bool) (ws : List (String × Workflow)) :
    ∀ (info : List (String × String)) errors hooked,
    hookWorkflowsLoop hr ws info errors hooked =
      (errors ++ info.filterMap (hookErrOf hr ws),
       hooked ++ info.filterMap (hookBindOf hr ws)) := by
  intro info
  induction info with
  | nil => intro errors hooked; simp [hookWorkflowsLoop]
  | cons hm rest ih =>
    intro errors hooked
    obtain ⟨hook_name, mode_name⟩ := hm
    rw [hookWorkflowsLoop]
    by_cases hmode : hr mode_name
    · simp only [hmode, not_true_eq_false, if_false, ite_false]
      cases hws : alistGet ws hook_name with
      | none =>
        simp [ih, List.filterMap_cons, hookErrOf, hookBindOf, hmode, hws]
      | some wf =>
        simp [ih, List.filterMap_cons, hookErrOf, hookBindOf, hmode, hws]
    · rw [if_pos (by simp [hmode])]
      rw [ih]
      simp [List.filterMap_cons, hookErrOf, hookBindOf, hmode]

lemma filterMap_length_eq_filter {α β : Type} (f : α → Option β) (p : α → Bool)
    (hf : ∀ x, (f x).isSome = p x) (l : List α) :
    (l.filterMap f).length = (l.filter p).length := by
  induction l with
  | nil => simp
  | cons a rest ih =>
    cases hfa : f a with
    | none =>
      have hp : p a = false := by rw [← hf a, hfa]; rfl
      simp [List.filterMap_cons, List.filter_cons, hfa, hp, ih]
    | some b =>
      have hp : p a = true := by rw [← hf a, hfa]; rfl
      simp [List.filterMap_cons, List.filter_cons, hfa, hp, ih]

lemma infix_pyRepr (pre m post : String) :
    m.data <:+: (pre ++ pyRepr m ++ post).data := by
  refine ⟨(pre ++ "'").data, ("'" ++ post).data, ?_⟩
  simp [pyRepr, String.data_append]



/-- C8: every hook declaration with an unrecognized stage name or a workflow
name absent from the loaded workflows contributes a hard error referencing
the offending name; errors are aggregated across all declared hooks; the
failing declarations register no binding (exactly the valid ones do); and
when any hook error exists, `_workflows_from_dict` raises the full
aggregated set instead of returning. -/
theorem workflows_from_dict_c8 (hr : String → Bool)
    (ws : List (String × Workflow)) (info : List (String × String)) :
    (∀ hook_name mode_name, (hook_name, mode_name) ∈ info →
      hr mode_name = false →
      ∃ ei ∈ fromCollected (hookWorkflowsLoop hr ws info [] []).1,
        mode_name.data <:+: ei.message.data) ∧
    (∀ hook_name mode_name, (hook_name, mode_name) ∈ info →
      hr mode_name = true → alistGet ws hook_name = none →
      ∃ ei ∈ fromCollected (hookWorkflowsLoop hr ws info [] []).1,
        hook_name.data <:+: ei.message.data) ∧
    ((hookWorkflowsLoop hr ws info [] []).1.length =
      (info.filter (fun hm => !(hr hm.2 && (alistGet ws hm.1).isSome))).length) ∧
    ((hookWorkflowsLoop hr ws info [] []).2.length =
      (info.filter (fun hm => hr hm.2 && (alistGet ws hm.1).isSome)).length) ∧
    (∀ (ext : Externals) (cd : ConfigDict) (sl : SubstitutionList)
        (ws₂ : List (String × Workflow)),
      cd.LOAD_WORKFLOW_JOB = none → cd.WORKFLOW_JOB_DIRECTORY = none →
      cd.HOOK_WORKFLOW = some info →
      (loadWorkflowsLoop ext sl [] (cd.LOAD_WORKFLOW.getD []) [] []).2 = ws₂ →
      (hookWorkflowsLoop ext.hasHookRuntime ws₂ info [] []).1 ≠ [] →
      (workflows_from_dict ext cd sl).2 =
        .error (fromCollected (hookWorkflowsLoop ext.hasHookRuntime ws₂ info [] []).1)) := by
  rw [hookWorkflowsLoop_eq]
  refine ⟨?_, ?_, ?_, ?_, ?_⟩
  · intro hook_name mode_name hmem hmode
    have herr : hookErrOf hr ws (hook_name, mode_name) =
        some (.inr (mkCVE ("Run mode " ++ pyRepr mode_name
          ++ " not supported for Hook Workflow"))) := by
      simp [hookErrOf, hmode]
    refine ⟨{ message := "Run mode " ++ pyRepr mode_name
        ++ " not supported for Hook Workflow", filename := none, context := none }, ?_, ?_⟩
    · unfold fromCollected
      simp only [List.nil_append]
      refine List.mem_flatMap.mpr ⟨.inr (mkCVE ("Run mode " ++ pyRepr mode_name
        ++ " not supported for Hook Workflow")), ?_, by simp [mkCVE]⟩
      exact List.mem_filterMap.mpr ⟨(hook_name, mode_name), hmem, herr⟩
    · exact infix_pyRepr "Run mode " mode_name " not supported for Hook Workflow"
  · intro hook_name mode_name hmem hmode hws
    have herr : hookErrOf hr ws (hook_name, mode_name) =
        some (.inl (ErrorInfo.mk
          ("Cannot setup hook for non-existing job name " ++ pyRepr hook_name)
          none (some hook_name))) := by
      simp [hookErrOf, hmode, hws]
    refine ⟨ErrorInfo.mk
        ("Cannot setup hook for non-existing job name " ++ pyRepr hook_name)
        none (some hook_name), ?_, ?_⟩
    · unfold fromCollected
      simp only [List.nil_append]
      refine List.mem_flatMap.mpr ⟨.inl (ErrorInfo.mk
        ("Cannot setup hook for non-existing job name " ++ pyRepr hook_name)
        none (some hook_name)), ?_, by simp⟩
      exact List.mem_filterMap.mpr ⟨(hook_name, mode_name), hmem, herr⟩
    · have := infix_pyRepr "Cannot setup hook for non-existing job name " hook_name ""
      simpa using this
  · simp only [List.nil_append]
    refine filterMap_length_eq_filter _ _ ?_ info
    intro hm
    by_cases hmode : hr hm.2
    · cases hws : alistGet ws hm.1 with
      | none => simp [hookErrOf, hmode, hws]
      | some wf => simp [hookErrOf, hmode, hws]
    · simp [hookErrOf, hmode]
  · simp only [List.nil_append]
    refine filterMap_length_eq_filter _ _ ?_ info
    intro hm
    by_cases hmode : hr hm.2
    · cases hws : alistGet ws hm.1 with
      | none => simp [hookBindOf, hmode, hws]
      | some wf => simp [hookBindOf, hmode, hws]
    · simp [hookBindOf, hmode]
  · intro ext cd sl ws₂ hLWJ hWJD hHW hws2 hne
    unfold workflows_from_dict
    rw [hLWJ, hWJD, hHW]
    simp only [Option.getD_none, Option.getD_some]
    rcases hload : loadWorkflowsLoop ext sl [] (cd.LOAD_WORKFLOW.getD []) [] []
      with ⟨w1, ws'⟩
    rw [hload] at hws2
    simp only at hws2
    subst hws2
    simp only [workflowJobsLoop, workflowJobDirsLoop]
    rw [hload]
    simp [hne]



/-- Witness for C8 at the spec's dangling-hook scenario:
`HOOK_WORKFLOW no_such_workflow PRE_SIMULATION` with no workflows loaded. -/
theorem workflows_from_dict_c8_witness :
    (∃ ei ∈ fromCollected (hookWorkflowsLoop baseExternals.hasHookRuntime []
        [("no_such_workflow", "PRE_SIMULATION")] [] []).1,
      "no_such_workflow".data <:+: ei.message.data) ∧
    (workflows_from_dict baseExternals
        { HOOK_WORKFLOW := some [("no_such_workflow", "PRE_SIMULATION")] } []).2 =
      .error (fromCollected (hookWorkflowsLoop baseExternals.hasHookRuntime []
        [("no_such_workflow", "PRE_SIMULATION")] [] []).1) :=
  have h := workflows_from_dict_c8 baseExternals.hasHookRuntime []
    [("no_such_workflow", "PRE_SIMULATION")]
  ⟨h.2.1 "no_such_workflow" "PRE_SIMULATION" (by decide) (by decide) (by decide),
   h.2.2.2.2 baseExternals _ [] [] rfl rfl rfl rfl (by decide)⟩


/-- Per-entry collected error of the `FORWARD_MODEL` loop. -/
def fmEntryError (subst : String → String)
    (addFromString : String → Except String (List (String × String)))
    (installed : List (String × ExtJob)) (config_file : String)
    (entry : FMEntry) : Option CVE :=
  let (n, args) := fmEntryParts entry
  let job_name := subst n
  match alistGet installed job_name with
  | none => some (mkCVE ("Could not find job " ++ pyRepr job_name
      ++ " in list of installed jobs: "
      ++ pyReprList (installed.map Prod.fst)) (some config_file))
  | some _ =>
    if argsTruthy args then
      match args with
      | .fromString s =>
        match addFromString s with
        | .error err => some (mkCVE (err ++ ": 'FORWARD_MODEL " ++ job_name
            ++ "(" ++ s ++ ")'") (some config_file))
        | .ok _ => none
      | .pairs _ => none
    else none

/-- Per-entry resolved invocation of the `FORWARD_MODEL` loop. -/
def fmEntryJob (subst : String → String)
    (addFromString : String → Except String (List (String × String)))
    (installed : List (String × ExtJob)) (entry : FMEntry) : Option ExtJob :=
  let (n, args) := fmEntryParts entry
  let job_name := subst n
  match alistGet installed job_name with
  | none => none
  | some job₀ =>
    if argsTruthy args then
      match args with
      | .fromString s =>
        match addFromString s with
        | .error _ => none
        | .ok parsed => some { job₀ with private_args := mkPrivateArgs parsed }
      | .pairs l => some { job₀ with private_args := mkPrivateArgs l }
    else some job₀

/-- Per-entry collected error of the `SIMULATION_JOB` loop. -/
def sjEntryError (installed : List (String × ExtJob)) (config_file : String)
    (desc : List String) : Option CVE :=
  match alistGet installed (desc.headD "") with
  | none => some (mkCVE ("Could not find job " ++ pyRepr (desc.headD "")
      ++ " in list of installed jobs.") (some config_file))
  | some _ => none

/-- Per-entry resolved invocation of the `SIMULATION_JOB` loop. -/
def sjEntryJob (installed : List (String × ExtJob)) (desc : List String) :
    Option ExtJob :=
  (alistGet installed (desc.headD "")).map fun j => { j with arglist := desc.tail }

lemma forwardModelLoop_eq (subst : String → String)
    (afs : String → Except String (List (String × String)))
    (installed : List (String × ExtJob)) (cf : String) :
    ∀ (entries : List FMEntry) errors jobs,
    forwardModelLoop subst afs installed cf entries errors jobs =
      (errors ++ entries.filterMap (fmEntryError subst afs installed cf),
       jobs ++ entries.filterMap (fmEntryJob subst afs installed)) := by
  intro entries
  induction entries with
  | nil => intro errors jobs; simp [forwardModelLoop]
  | cons entry rest ih =>
    intro errors jobs
    rw [forwardModelLoop]
    rcases hparts : fmEntryParts entry with ⟨n, args⟩
    cases hfind : alistGet installed (subst n) with
    | none =>
      simp [ih, List.filterMap_cons, fmEntryError, fmEntryJob, hparts, hfind]
    | some job₀ =>
      by_cases htr : argsTruthy args
      · cases args with
        | fromString s =>
          cases hafs : afs s with
          | error err =>
            simp [htr, hafs, ih, List.filterMap_cons, fmEntryError, fmEntryJob,
              hparts, hfind]
          | ok parsed =>
            simp [htr, hafs, ih, List.filterMap_cons, fmEntryError, fmEntryJob,
              hparts, hfind]
        | pairs l =>
          simp [htr, ih, List.filterMap_cons, fmEntryError, fmEntryJob,
            hparts, hfind]
      · simp [htr, ih, List.filterMap_cons, fmEntryError, fmEntryJob,
          hparts, hfind]

lemma simulationJobLoop_eq (installed : List (String × ExtJob)) (cf : String) :
    ∀ (descs : List (List String)) errors jobs,
    simulationJobLoop installed cf descs errors jobs =
      (errors ++ descs.filterMap (sjEntryError installed cf),
       jobs ++ descs.filterMap (sjEntryJob installed)) := by
  intro descs
  induction descs with
  | nil => intro errors jobs; simp [simulationJobLoop]
  | cons desc rest ih =>
    intro errors jobs
    rw [simulationJobLoop]
    cases hfind : alistGet installed (desc.headD "") with
    | none =>
      rw [List.headD_eq_head?] at hfind
      simp [ih, List.filterMap_cons, sjEntryError, sjEntryJob,
        List.headD_eq_head?, hfind]
    | some job₀ =>
      rw [List.headD_eq_head?] at hfind
      simp [ih, List.filterMap_cons, sjEntryError, sjEntryJob,
        List.headD_eq_head?, hfind]

lemma readForwardModelAux_eq (subst : String → String)
    (afs : String → Except String (List (String × String)))
    (installed : List (String × ExtJob)) (cd : ConfigDict) (cf : String) :
    readForwardModelAux subst afs installed cd cf =
      ((cd.FORWARD_MODEL.getD []).filterMap (fmEntryError subst afs installed cf)
        ++ (cd.SIMULATION_JOB.getD []).filterMap (sjEntryError installed cf),
       (cd.FORWARD_MODEL.getD []).filterMap (fmEntryJob subst afs installed)
        ++ (cd.SIMULATION_JOB.getD []).filterMap (sjEntryJob installed)) := by
  unfold readForwardModelAux
  rw [forwardModelLoop_eq]
  simp only []
  rw [simulationJobLoop_eq]
  simp



lemma infix_joinComma (x : String) (l : List String) (h : x ∈ l) :
    x.data <:+: (joinComma l).data := by
  induction l with
  | nil => cases h
  | cons y rest ih =>
    rcases List.mem_cons.mp h with h' | h'
    · subst h'
      cases rest with
      | nil => exact ⟨[], [], by simp [joinComma]⟩
      | cons z zs =>
        exact ⟨[], (", " ++ joinComma (z :: zs)).data,
          by simp [joinComma, String.data_append]⟩
    · have hr := ih h'
      cases rest with
      | nil => cases h'
      | cons z zs =>
        obtain ⟨s, t, hst⟩ := hr
        refine ⟨(y ++ ", ").data ++ s, t, ?_⟩
        have hj : joinComma (y :: z :: zs) = y ++ ", " ++ joinComma (z :: zs) := rfl
        rw [hj]
        simp only [String.data_append, ← hst, List.append_assoc]

lemma infix_pyReprList (x : String) (l : List String) (h : x ∈ l) :
    x.data <:+: (pyReprList l).data := by
  have h1 : x.data <:+: (pyRepr x).data := ⟨['\''], ['\''], by simp [pyRepr]⟩
  have h2 : (pyRepr x).data <:+: (joinComma (l.map pyRepr)).data :=
    infix_joinComma _ _ (List.mem_map.mpr ⟨x, h, rfl⟩)
  have h3 : (joinComma (l.map pyRepr)).data <:+: (pyReprList l).data := by
    refine ⟨"[".data, "]".data, ?_⟩
    simp [pyReprList, String.data_append]
  exact h1.trans (h2.trans h3)



/-- C4 counterexample: a `SIMULATION_JOB` invocation naming a job absent
from the registry `{known_job_zzz}` is recorded with the message
`Could not find job 'missing_job' in list of installed jobs.`, which does
not list the known registry names. -/
theorem read_forward_model_c4_counterexample :
    read_forward_model (fun s => s) (fun _ => .ok [])
        [("known_job_zzz", (default : ExtJob))]
        { SIMULATION_JOB := some [["missing_job"]] } "config.ert" =
      .error [{ message := "Could not find job 'missing_job' in list of installed jobs.",
                filename := some "config.ert" }] ∧
    containsSub "known_job_zzz".data
      "Could not find job 'missing_job' in list of installed jobs.".data = false := by
  decide

/-- C4 (amended): a `FORWARD_MODEL` invocation naming an absent job records
an error whose message lists every known registry name, while a
`SIMULATION_JOB` invocation records its error without the registry listing;
in both loops the failing invocation is skipped (the resolved list is
exactly the per-entry resolutions of the non-failing invocations) and the
collected errors are raised together only after all invocations are
processed. -/
theorem read_forward_model_c4 (subst : String → String)
    (afs : String → Except String (List (String × String)))
    (installed : List (String × ExtJob)) (cd : ConfigDict) (cf : String) :
    (∀ entry ∈ cd.FORWARD_MODEL.getD [],
      alistGet installed (subst (fmEntryParts entry).1) = none →
      ∃ msg, mkCVE msg (some cf) ∈ (readForwardModelAux subst afs installed cd cf).1 ∧
        msg = "Could not find job " ++ pyRepr (subst (fmEntryParts entry).1)
          ++ " in list of installed jobs: " ++ pyReprList (installed.map Prod.fst) ∧
        ∀ n ∈ installed.map Prod.fst, n.data <:+: msg.data) ∧
    (∀ desc ∈ cd.SIMULATION_JOB.getD [],
      alistGet installed (desc.headD "") = none →
      mkCVE ("Could not find job " ++ pyRepr (desc.headD "")
        ++ " in list of installed jobs.") (some cf)
        ∈ (readForwardModelAux subst afs installed cd cf).1) ∧
    ((readForwardModelAux subst afs installed cd cf).2 =
      (cd.FORWARD_MODEL.getD []).filterMap (fmEntryJob subst afs installed)
        ++ (cd.SIMULATION_JOB.getD []).filterMap (sjEntryJob installed)) ∧
    (∀ errs jobs, readForwardModelAux subst afs installed cd cf = (errs, jobs) →
      (errs ≠ [] → read_forward_model subst afs installed cd cf =
        .error (fromCollected (errs.map Sum.inr))) ∧
      (errs = [] → read_forward_model subst afs installed cd cf = .ok jobs)) := by
  refine ⟨?_, ?_, ?_, ?_⟩
  · intro entry hmem hfind
    refine ⟨"Could not find job " ++ pyRepr (subst (fmEntryParts entry).1)
      ++ " in list of installed jobs: " ++ pyReprList (installed.map Prod.fst),
      ?_, rfl, ?_⟩
    · rw [readForwardModelAux_eq]
      refine List.mem_append_left _ ?_
      refine List.mem_filterMap.mpr ⟨entry, hmem, ?_⟩
      rcases hparts : fmEntryParts entry with ⟨n, args⟩
      rw [hparts] at hfind
      simp only at hfind
      simp [fmEntryError, hparts, hfind]
    · intro n hn
      have h1 : n.data <:+: (pyReprList (installed.map Prod.fst)).data :=
        infix_pyReprList n _ hn
      obtain ⟨s, t, hst⟩ := h1
      exact ⟨("Could not find job " ++ pyRepr (subst (fmEntryParts entry).1)
        ++ " in list of installed jobs: ").data ++ s, t, by
        simp only [String.data_append, ← hst, List.append_assoc]⟩
  · intro desc hmem hfind
    rw [readForwardModelAux_eq]
    refine List.mem_append_right _ ?_
    refine List.mem_filterMap.mpr ⟨desc, hmem, ?_⟩
    rw [List.headD_eq_head?] at hfind
    simp [sjEntryError, List.headD_eq_head?, hfind]
  · rw [readForwardModelAux_eq]
  · intro errs jobs heq
    constructor
    · intro hne
      unfold read_forward_model
      rw [heq]
      simp [hne]
    · intro hnil
      unfold read_forward_model
      rw [heq]
      simp [hnil]



/-- Witness for the amended C4: one absent `FORWARD_MODEL` job and one
absent `SIMULATION_JOB` job against the registry `{known_job_zzz}`. -/
theorem read_forward_model_c4_witness :
    (∃ msg, mkCVE msg (some "c.ert") ∈ (readForwardModelAux (fun s => s)
        (fun _ => .ok []) [("known_job_zzz", (default : ExtJob))]
        { FORWARD_MODEL := some [FMEntry.nameOnly "absent"],
          SIMULATION_JOB := some [["missing_job"]] } "c.ert").1 ∧
      msg = "Could not find job " ++ pyRepr "absent"
          ++ " in list of installed jobs: " ++ pyReprList ["known_job_zzz"] ∧
      ∀ n ∈ ["known_job_zzz"], n.data <:+: msg.data) ∧
    mkCVE "Could not find job 'missing_job' in list of installed jobs."
        (some "c.ert") ∈ (readForwardModelAux (fun s => s)
        (fun _ => .ok []) [("known_job_zzz", (default : ExtJob))]
        { FORWARD_MODEL := some [FMEntry.nameOnly "absent"],
          SIMULATION_JOB := some [["missing_job"]] } "c.ert").1 ∧
    read_forward_model (fun s => s) (fun _ => .ok [])
        [("known_job_zzz", (default : ExtJob))]
        { FORWARD_MODEL := some [FMEntry.nameOnly "absent"],
          SIMULATION_JOB := some [["missing_job"]] } "c.ert" =
      .error (fromCollected
        ([mkCVE ("Could not find job 'absent' in list of installed jobs: ['known_job_zzz']")
            (some "c.ert"),
          mkCVE "Could not find job 'missing_job' in list of installed jobs."
            (some "c.ert")].map Sum.inr)) :=
  have h := read_forward_model_c4 (fun s => s) (fun _ => .ok [])
    [("known_job_zzz", (default : ExtJob))]
    { FORWARD_MODEL := some [FMEntry.nameOnly "absent"],
      SIMULATION_JOB := some [["missing_job"]] } "c.ert"
  ⟨h.1 (FMEntry.nameOnly "absent") (by decide) (by decide),
   h.2.1 ["missing_job"] (by decide) (by decide),
   (h.2.2.2 [mkCVE ("Could not find job 'absent' in list of installed jobs: ['known_job_zzz']")
        (some "c.ert"),
      mkCVE "Could not find job 'missing_job' in list of installed jobs."
        (some "c.ert")] [] (by decide)).1 (by decide)⟩



/-- The `config_file` value `from_dict` derives from the seeded substitution
table before validating. -/
def fromDictConfigFile (ext : Externals) (cd : ConfigDict) : String :=
  (slGet (slSet (ext.substitutionFromDict cd) "<RUNPATH_FILE>"
    (cd.RUNPATH_FILE.getD DEFAULT_RUNPATH_FILE)) "<CONFIG_FILE>").getD "no_config"

/-- C2: a configuration with exactly two independent hard errors — one
unparsable `QUEUE_OPTION MAX_RUNNING` value and one `SUMMARY` without
`ECLBASE` — makes `from_dict` raise a `ConfigValidationError` whose
collected set has exactly those two entries, one per violation. -/
theorem from_dict_c2 (ext : Externals) (cd : ConfigDict)
    (s : List (List String)) (hsum : cd.SUMMARY = some s)
    (hecl : cd.ECLBASE = none)
    (q v : String) (hqo : cd.QUEUE_OPTION = some [[q, "MAX_RUNNING", v]])
    (hv : pyInt v = none) :
    from_dict ext cd = .error (.cve
      [{ message := "When using SUMMARY keyword, the config must also specify ECLBASE",
         filename := some (fromDictConfigFile ext cd),
         context := some ((s.headD []).headD "") },
       { message := "QUEUE_OPTION MAX_RUNNING is not an integer: " ++ pyRepr v,
         filename := some (fromDictConfigFile ext cd), context := some v }]) := by
  unfold from_dict fromDictConfigFile
  simp [validate_dict, hsum, hecl, validate_queue_option_max_running, hqo,
    validateQOMREntries, pyIntStar, hv, bind, Except.bind, pure, Except.pure, fromCollected, mkCVE]



/-- Witness for C2 at a concrete two-error configuration. -/
theorem from_dict_c2_witness :
    from_dict baseExternals
        { SUMMARY := some [["FOPR"]], ECLBASE := none,
          QUEUE_OPTION := some [["LOCAL", "MAX_RUNNING", "xyz"]] } =
      .error (.cve
        [{ message := "When using SUMMARY keyword, the config must also specify ECLBASE",
           filename := some "no_config", context := some "FOPR" },
         { message := "QUEUE_OPTION MAX_RUNNING is not an integer: 'xyz'",
           filename := some "no_config", context := some "xyz" }]) :=
  from_dict_c2 baseExternals
    { SUMMARY := some [["FOPR"]], ECLBASE := none,
      QUEUE_OPTION := some [["LOCAL", "MAX_RUNNING", "xyz"]] }
    [["FOPR"]] rfl rfl "LOCAL" "xyz" rfl (by decide)


set_option maxHeartbeats 1600000

/-- The substitution table `from_dict` has seeded before building the
sub-configurations. -/
def fromDictSl1 (ext : Externals) (cd : ConfigDict) : SubstitutionList :=
  slSet (ext.substitutionFromDict cd) "<RUNPATH_FILE>"
    (cd.RUNPATH_FILE.getD DEFAULT_RUNPATH_FILE)

/-- The substitution table after the model-config keys were added. -/
def fromDictSl2 (ext : Externals) (cd : ConfigDict) (mc : ModelConfig) :
    SubstitutionList :=
  slSet (slSet (slSet (fromDictSl1 ext cd) "<RUNPATH>" mc.runpath_format_string)
    "<ECL_BASE>" mc.eclbase_format_string) "<ECLBASE>" mc.eclbase_format_string

lemma from_dict_ok_clean (ext : Externals) (cd : ConfigDict) (c : ErtConfig)
    (h : from_dict ext cd = .ok c) :
    validate_dict cd (fromDictConfigFile ext cd) = [] ∧
    validate_queue_option_max_running (fromDictConfigFile ext cd) cd = .ok [] ∧
    (∃ ec, ext.ensembleFromDict cd = .ok ec ∧
      validate_ensemble_config (fromDictConfigFile ext cd) cd = .ok [] ∧
      ∃ mc, ext.modelConfigFromDict ec.refcase cd = .ok mc ∧
        (∃ t, (workflows_from_dict ext cd (fromDictSl2 ext cd mc)).2 = .ok t) ∧
        (∃ jobs, (installed_jobs_from_dict ext cd).2 = .ok jobs ∧
          ∃ fml, read_forward_model (ext.substitute (fromDictSl2 ext cd mc))
            ext.addFromString jobs cd (fromDictConfigFile ext cd) = .ok fml)) := by
  unfold from_dict at h
  simp only [bind, Except.bind, pure, Except.pure] at h
  split at h
  · exact absurd h (by simp)
  · rename_i es hq
    split at h
    · exact absurd h (by simp)
    · rename_i hne
      rw [not_not, List.append_eq_nil] at hne
      obtain ⟨hvd, hes⟩ := hne
      cases hens : ext.ensembleFromDict cd with
      | error e =>
        rw [hens] at h
        simp [Except.mapError] at h
      | ok ec =>
        rw [hens] at h
        simp only [Except.mapError] at h
        cases hve : validate_ensemble_config ((slGet (slSet
            (ext.substitutionFromDict cd) "<RUNPATH_FILE>"
            (cd.RUNPATH_FILE.getD DEFAULT_RUNPATH_FILE)) "<CONFIG_FILE>").getD
            "no_config") cd with
        | error e =>
          rw [hve] at h
          simp [Except.mapError] at h
        | ok ensErrs =>
          rw [hve] at h
          simp only [Except.mapError] at h
          cases hm : ext.modelConfigFromDict ec.refcase cd with
          | error e =>
            rw [hm] at h
            dsimp only at h
            rcases hij : installed_jobs_from_dict ext cd with ⟨ijW, ijR⟩
            rw [hij] at h
            dsimp only at h
            cases ijR with
            | error eij =>
              dsimp only at h
              rw [if_pos (by simp)] at h
              exact absurd h (by simp)
            | ok jobs =>
              dsimp only at h
              rcases hw : workflows_from_dict ext cd (slSet
                  (ext.substitutionFromDict cd) "<RUNPATH_FILE>"
                  (cd.RUNPATH_FILE.getD DEFAULT_RUNPATH_FILE)) with ⟨wfW, wfR⟩
              rw [hw] at h
              dsimp only at h
              cases wfR with
              | error ewf =>
                rw [if_pos (by simp)] at h
                exact absurd h (by simp)
              | ok t =>
                rw [if_pos (by simp)] at h
                exact absurd h (by simp)
          | ok mc =>
            rw [hm] at h
            dsimp only at h
            rcases hij : installed_jobs_from_dict ext cd with ⟨ijW, ijR⟩
            rw [hij] at h
            dsimp only at h
            rcases hw : workflows_from_dict ext cd (slSet (slSet (slSet (slSet
                (ext.substitutionFromDict cd) "<RUNPATH_FILE>"
                (cd.RUNPATH_FILE.getD DEFAULT_RUNPATH_FILE))
                "<RUNPATH>" mc.runpath_format_string)
                "<ECL_BASE>" mc.eclbase_format_string)
                "<ECLBASE>" mc.eclbase_format_string) with ⟨wfW, wfR⟩
            rw [hw] at h
            dsimp only at h
            cases ijR with
            | error eij =>
              cases wfR with
              | error ewf =>
                dsimp only at h
                rw [if_pos (by simp)] at h
                exact absurd h (by simp)
              | ok t =>
                dsimp only at h
                rw [if_pos (by simp)] at h
                exact absurd h (by simp)
            | ok jobs =>
              cases wfR with
              | error ewf =>
                dsimp only at h
                rw [if_pos (by simp)] at h
                exact absurd h (by simp)
              | ok t =>
                dsimp only at h
                split at h
                · exact absurd h (by simp)
                · rename_i hens2
                  simp only [ne_eq, not_not, List.append_nil, List.map_eq_nil_iff] at hens2
                  subst hens2
                  subst hes
                  cases han : ext.analysisFromDict cd with
                  | error e =>
                    rw [han] at h
                    simp [Except.mapError] at h
                  | ok ac =>
                    rw [han] at h
                    simp only [Except.mapError] at h
                    cases hqc : ext.queueFromDict cd with
                    | error e =>
                      rw [hqc] at h
                      simp [Except.mapError] at h
                    | ok qc =>
                      rw [hqc] at h
                      simp only [Except.mapError] at h
                      cases htmpl : read_templates ext cd with
                      | error e =>
                        rw [htmpl] at h
                        simp [Except.mapError] at h
                      | ok tmpl =>
                        rw [htmpl] at h
                        simp only [Except.mapError] at h
                        cases hrfm : read_forward_model (ext.substitute (slSet
                            (slSet (slSet (slSet (ext.substitutionFromDict cd)
                            "<RUNPATH_FILE>"
                            (cd.RUNPATH_FILE.getD DEFAULT_RUNPATH_FILE))
                            "<RUNPATH>" mc.runpath_format_string)
                            "<ECL_BASE>" mc.eclbase_format_string)
                            "<ECLBASE>" mc.eclbase_format_string))
                            ext.addFromString jobs cd ((slGet (slSet
                            (ext.substitutionFromDict cd) "<RUNPATH_FILE>"
                            (cd.RUNPATH_FILE.getD DEFAULT_RUNPATH_FILE))
                            "<CONFIG_FILE>").getD "no_config") with
                        | error e =>
                          rw [hrfm] at h
                          simp [Except.mapError] at h
                        | ok fml =>
                          refine ⟨hvd, hq, ec, rfl, hve, mc, hm, ⟨t, ?_⟩,
                            jobs, ?_, fml, hrfm⟩
                          · exact congrArg Prod.snd hw
                          · rfl



lemma from_dict_phase1_raise (ext : Externals) (cd : ConfigDict)
    (es : List ErrorInfo)
    (hq : validate_queue_option_max_running (fromDictConfigFile ext cd) cd = .ok es)
    (hne : validate_dict cd (fromDictConfigFile ext cd) ++ es ≠ []) :
    from_dict ext cd = .error (.cve (fromCollected
      ((validate_dict cd (fromDictConfigFile ext cd) ++ es).map Sum.inl))) := by
  unfold fromDictConfigFile at hq hne
  unfold from_dict
  simp only [bind, Except.bind, pure, Except.pure]
  rw [hq]
  dsimp only
  rw [if_pos hne]
  rfl

lemma from_dict_ens_raise (ext : Externals) (cd : ConfigDict)
    (es : List ErrorInfo) (e : CVE)
    (hq : validate_queue_option_max_running (fromDictConfigFile ext cd) cd = .ok es)
    (hnil : validate_dict cd (fromDictConfigFile ext cd) ++ es = [])
    (hens : ext.ensembleFromDict cd = .error e) :
    from_dict ext cd = .error (.cve e) := by
  unfold fromDictConfigFile at hq hnil
  unfold from_dict
  simp only [bind, Except.bind, pure, Except.pure]
  rw [hq]
  dsimp only
  rw [if_neg (by rw [hnil]; simp)]
  rw [hens]
  simp [Except.mapError]

lemma from_dict_genkw_raise (ext : Externals) (cd : ConfigDict)
    (es : List ErrorInfo) (ec : EnsembleConfig) (e : CVE)
    (hq : validate_queue_option_max_running (fromDictConfigFile ext cd) cd = .ok es)
    (hnil : validate_dict cd (fromDictConfigFile ext cd) ++ es = [])
    (hens : ext.ensembleFromDict cd = .ok ec)
    (hve : validate_ensemble_config (fromDictConfigFile ext cd) cd = .error e) :
    from_dict ext cd = .error (.cve e) := by
  unfold fromDictConfigFile at hq hnil hve
  unfold from_dict
  simp only [bind, Except.bind, pure, Except.pure]
  rw [hq]
  dsimp only
  rw [if_neg (by rw [hnil]; simp)]
  rw [hens]
  simp only [Except.mapError]
  rw [hve]

lemma from_dict_model_raise (ext : Externals) (cd : ConfigDict)
    (es : List ErrorInfo) (ec : EnsembleConfig) (ensErrs : List CVE) (e : CVE)
    (hq : validate_queue_option_max_running (fromDictConfigFile ext cd) cd = .ok es)
    (hnil : validate_dict cd (fromDictConfigFile ext cd) ++ es = [])
    (hens : ext.ensembleFromDict cd = .ok ec)
    (hve : validate_ensemble_config (fromDictConfigFile ext cd) cd = .ok ensErrs)
    (hm : ext.modelConfigFromDict ec.refcase cd = .error e) :
    ∃ errs, from_dict ext cd = .error (.cve errs) := by
  unfold fromDictConfigFile at hq hnil hve
  unfold from_dict
  simp only [bind, Except.bind, pure, Except.pure]
  rw [hq]
  dsimp only
  rw [if_neg (by rw [hnil]; simp)]
  rw [hens]
  simp only [Except.mapError]
  rw [hve]
  simp only [Except.mapError]
  rw [hm]
  dsimp only
  rcases hij : installed_jobs_from_dict ext cd with ⟨ijW, ijR⟩
  dsimp only
  cases ijR with
  | error eij =>
    dsimp only
    rw [if_pos (by simp)]
    exact ⟨_, rfl⟩
  | ok jobs =>
    dsimp only
    rcases hw : workflows_from_dict ext cd (slSet
        (ext.substitutionFromDict cd) "<RUNPATH_FILE>"
        (cd.RUNPATH_FILE.getD DEFAULT_RUNPATH_FILE)) with ⟨wfW, wfR⟩
    cases wfR with
    | error ewf =>
      rw [if_pos (by simp)]
      exact ⟨_, rfl⟩
    | ok t =>
      rw [if_pos (by simp)]
      exact ⟨_, rfl⟩



lemma from_dict_late_raise (ext : Externals) (cd : ConfigDict)
    (es : List ErrorInfo) (ec : EnsembleConfig) (ensErrs : List CVE)
    (mc : ModelConfig)
    (hq : validate_queue_option_max_running (fromDictConfigFile ext cd) cd = .ok es)
    (hnil : validate_dict cd (fromDictConfigFile ext cd) ++ es = [])
    (hens : ext.ensembleFromDict cd = .ok ec)
    (hve : validate_ensemble_config (fromDictConfigFile ext cd) cd = .ok ensErrs)
    (hm : ext.modelConfigFromDict ec.refcase cd = .ok mc)
    (hbad : ensErrs ≠ [] ∨
      (∃ e, (workflows_from_dict ext cd (fromDictSl2 ext cd mc)).2 = .error e) ∨
      (∃ e, (installed_jobs_from_dict ext cd).2 = .error e)) :
    ∃ errs, from_dict ext cd = .error (.cve errs) := by
  unfold fromDictConfigFile at hq hnil hve
  unfold from_dict
  simp only [bind, Except.bind, pure, Except.pure]
  rw [hq]
  dsimp only
  rw [if_neg (by rw [hnil]; simp)]
  rw [hens]
  simp only [Except.mapError]
  rw [hve]
  simp only [Except.mapError]
  rw [hm]
  dsimp only
  rcases hij : installed_jobs_from_dict ext cd with ⟨ijW, ijR⟩
  dsimp only
  rcases hw : workflows_from_dict ext cd (slSet (slSet (slSet (slSet
      (ext.substitutionFromDict cd) "<RUNPATH_FILE>"
      (cd.RUNPATH_FILE.getD DEFAULT_RUNPATH_FILE))
      "<RUNPATH>" mc.runpath_format_string)
      "<ECL_BASE>" mc.eclbase_format_string)
      "<ECLBASE>" mc.eclbase_format_string) with ⟨wfW, wfR⟩
  dsimp only
  cases ijR with
  | error eij =>
    cases wfR with
    | error ewf =>
      dsimp only
      rw [if_pos (by simp)]
      exact ⟨_, rfl⟩
    | ok t =>
      dsimp only
      rw [if_pos (by simp)]
      exact ⟨_, rfl⟩
  | ok jobs =>
    cases wfR with
    | error ewf =>
      dsimp only
      rw [if_pos (by simp)]
      exact ⟨_, rfl⟩
    | ok t =>
      dsimp only
      have hensne : ensErrs ≠ [] := by
        rcases hbad with h | ⟨e, hwe⟩ | ⟨e, hie⟩
        · exact h
        · exact absurd ((congrArg Prod.snd hw).symm.trans hwe) (by simp)
        · exact absurd ((congrArg Prod.snd hij).symm.trans hie) (by simp)
      rw [if_pos (by simp [hensne])]
      exact ⟨_, rfl⟩





/-- C3: `from_dict` is all-or-nothing.  A successfully returned `ErtConfig`
implies every validation phase (dictionary validation, queue-option
validation, ensemble construction, GEN_KW validation, model config,
workflow loading, job installation, forward-model resolution) accumulated
zero hard errors, and conversely a hard error in any phase makes
`from_dict` raise a `ConfigValidationError` so that no `ErtConfig` value is
ever constructed. -/
theorem from_dict_c3 (ext : Externals) (cd : ConfigDict) :
    (∀ c, from_dict ext cd = .ok c →
      validate_dict cd (fromDictConfigFile ext cd) = [] ∧
      validate_queue_option_max_running (fromDictConfigFile ext cd) cd = .ok [] ∧
      (∃ ec, ext.ensembleFromDict cd = .ok ec ∧
        validate_ensemble_config (fromDictConfigFile ext cd) cd = .ok [] ∧
        ∃ mc, ext.modelConfigFromDict ec.refcase cd = .ok mc ∧
          (∃ t, (workflows_from_dict ext cd (fromDictSl2 ext cd mc)).2 = .ok t) ∧
          (∃ jobs, (installed_jobs_from_dict ext cd).2 = .ok jobs ∧
            ∃ fml, read_forward_model (ext.substitute (fromDictSl2 ext cd mc))
              ext.addFromString jobs cd (fromDictConfigFile ext cd) = .ok fml))) ∧
    (∀ es, validate_queue_option_max_running (fromDictConfigFile ext cd) cd = .ok es →
      (validate_dict cd (fromDictConfigFile ext cd) ++ es ≠ [] →
        from_dict ext cd = .error (.cve (fromCollected
          ((validate_dict cd (fromDictConfigFile ext cd) ++ es).map Sum.inl)))) ∧
      (validate_dict cd (fromDictConfigFile ext cd) ++ es = [] →
        (∀ e, ext.ensembleFromDict cd = .error e →
          from_dict ext cd = .error (.cve e)) ∧
        (∀ ec, ext.ensembleFromDict cd = .ok ec →
          (∀ e, validate_ensemble_config (fromDictConfigFile ext cd) cd = .error e →
            from_dict ext cd = .error (.cve e)) ∧
          (∀ ensErrs,
            validate_ensemble_config (fromDictConfigFile ext cd) cd = .ok ensErrs →
            (∀ e, ext.modelConfigFromDict ec.refcase cd = .error e →
              ∃ errs, from_dict ext cd = .error (.cve errs)) ∧
            (∀ mc, ext.modelConfigFromDict ec.refcase cd = .ok mc →
              (ensErrs ≠ [] ∨
                (∃ e, (workflows_from_dict ext cd (fromDictSl2 ext cd mc)).2 =
                  .error e) ∨
                (∃ e, (installed_jobs_from_dict ext cd).2 = .error e)) →
              ∃ errs, from_dict ext cd = .error (.cve errs)))))) :=
  ⟨fun c h => from_dict_ok_clean ext cd c h,
   fun es hq =>
    ⟨fun hne => from_dict_phase1_raise ext cd es hq hne,
     fun hnil =>
      ⟨fun e hens => from_dict_ens_raise ext cd es e hq hnil hens,
       fun ec hens =>
        ⟨fun e hve => from_dict_genkw_raise ext cd es ec e hq hnil hens hve,
         fun ensErrs hve =>
          ⟨fun e hm => from_dict_model_raise ext cd es ec ensErrs e hq hnil hens hve hm,
           fun mc hm hbad =>
            from_dict_late_raise ext cd es ec ensErrs mc hq hnil hens hve hm hbad⟩⟩⟩⟩⟩

/-- Witness for C3: the empty configuration loads successfully (so its
phases are all clean), and a `SUMMARY`-without-`ECLBASE` configuration is
rejected with the collected error set. -/
theorem from_dict_c3_witness :
    validate_queue_option_max_running (fromDictConfigFile baseExternals {}) {} =
      .ok [] ∧
    from_dict baseExternals { SUMMARY := some [["FOPR"]] } =
      .error (.cve [ErrorInfo.mk
        "When using SUMMARY keyword, the config must also specify ECLBASE"
        (some "no_config") (some "FOPR")]) :=
  ⟨((from_dict_c3 baseExternals {}).1
      { substitution_list := [("<RUNPATH_FILE>", ".ert_runpath_list"),
          ("<RUNPATH>", ""), ("<ECL_BASE>", ""), ("<ECLBASE>", "")],
        ensemble_config := {}, ens_path := "storage", env_vars := [],
        random_seed := none, analysis_config := {}, queue_config := {},
        workflow_jobs := [], workflows := [], hooked_workflows := [],
        runpath_file := ".ert_runpath_list", ert_templates := [],
        installed_jobs := [], forward_model_list := [],
        model_config := some {}, user_config_file := "no_config",
        config_path := "", warning_infos := [] } (by decide)).2.1,
   ((from_dict_c3 baseExternals { SUMMARY := some [["FOPR"]] }).2 []
      (by decide)).1 (by decide)⟩


/-- The value a resolved invocation's fresh copy holds: the registry
object's value, with the private argument scope attached when arguments
were given. -/
def allocJobOf (reg : ExtJob) (a : List (String × String)) : ExtJob :=
  if a = [] then reg else { reg with private_args := mkPrivateArgs a }

lemma getD_append_left {l l' : List ExtJob} {n : Nat} (d : ExtJob)
    (h : n < l.length) : (l ++ l').getD n d = l.getD n d := by
  simp only [List.getD, List.get?_eq_getElem?]
  rw [List.getElem?_append]
  simp [h]

lemma range_map_add_succ (n L : Nat) :
    (List.range (n + 1)).map (L + ·) = L :: (List.range n).map ((L + 1) + ·) := by
  rw [List.range_succ_eq_map, List.map_cons, List.map_map]
  simp only [Nat.add_zero]
  congr 1
  apply List.map_congr_left
  intro i _
  simp only [Function.comp_apply]
  omega

lemma forwardModelLoopAlloc_resolved (subst : String → String)
    (afs : String → Except String (List (String × String)))
    (registry : List (String × Nat)) (cf jobname : String) (raddr : Nat)
    (store0 : List ExtJob)
    (hname : alistGet registry (subst jobname) = some raddr)
    (hlt : raddr < store0.length) :
    ∀ (argsets : List (List (String × String))) (extra : List ExtJob)
      (errors : List CVE) (invocations : List Nat),
    forwardModelLoopAlloc subst afs registry cf
        (argsets.map fun a => FMEntry.withArgs jobname (.pairs a))
        (store0 ++ extra) errors invocations =
      (store0 ++ extra ++ argsets.map (allocJobOf (store0.getD raddr default)),
       errors,
       invocations ++ (List.range argsets.length).map ((store0 ++ extra).length + ·)) := by
  intro argsets
  induction argsets with
  | nil =>
    intro extra errors invocations
    simp [forwardModelLoopAlloc]
  | cons a rest ih =>
    intro extra errors invocations
    rw [List.map_cons, forwardModelLoopAlloc]
    dsimp only [fmEntryParts]
    rw [hname]
    have hcopy : (store0 ++ extra).getD raddr default = store0.getD raddr default :=
      getD_append_left default hlt
    by_cases ha : a = []
    · subst ha
      dsimp only [argsTruthy]
      rw [if_neg (by simp)]
      rw [hcopy]
      have step := ih (extra ++ [store0.getD raddr default]) errors
        (invocations ++ [(store0 ++ extra).length])
      rw [← List.append_assoc] at step
      rw [step]
      refine congrArg₂ Prod.mk ?_ (congrArg₂ Prod.mk rfl ?_)
      · simp [allocJobOf, List.append_assoc]
      · have hlen : ∀ j : ExtJob, (store0 ++ extra ++ [j]).length
            = (store0 ++ extra).length + 1 := fun j => by
          simp only [List.length_append, List.length_cons, List.length_nil]
        rw [hlen]
        simp only [List.length_cons]
        rw [range_map_add_succ]
        simp [List.append_assoc]
    · dsimp only [argsTruthy]
      rw [if_pos (by simp [ha])]
      rw [hcopy]
      have step := ih (extra ++ [{ store0.getD raddr default with
        private_args := mkPrivateArgs a }]) errors
        (invocations ++ [(store0 ++ extra).length])
      rw [← List.append_assoc] at step
      rw [step]
      refine congrArg₂ Prod.mk ?_ (congrArg₂ Prod.mk rfl ?_)
      · simp [allocJobOf, ha, List.append_assoc]
      · have hlen : ∀ j : ExtJob, (store0 ++ extra ++ [j]).length
            = (store0 ++ extra).length + 1 := fun j => by
          simp only [List.length_append, List.length_cons, List.length_nil]
        rw [hlen]
        simp only [List.length_cons]
        rw [range_map_add_succ]
        simp [List.append_assoc]



lemma storeSetPrivateArgs_get_ne (store : List ExtJob) (addr idx : Nat)
    (args : SubstitutionList) (h : addr ≠ idx) :
    (storeSetPrivateArgs store addr args)[idx]? = store[idx]? := by
  unfold storeSetPrivateArgs
  cases hs : store.get? addr
  · rfl
  · exact List.getElem?_set_ne h

/-- C1: resolving N `FORWARD_MODEL` invocations of the same registered job
name over the explicit store allocates N fresh, pairwise distinct
addresses, each holding an independent deep copy of the registry's job
definition with that invocation's private argument scope attached; no
errors are collected; the registry object is untouched; and mutating one
invocation's private argument scope afterwards changes neither the shared
registry entry nor any other invocation's resolved job. -/
theorem read_forward_model_c1 (subst : String → String)
    (afs : String → Except String (List (String × String)))
    (registry : List (String × Nat)) (cf jobname : String) (raddr : Nat)
    (store0 : List ExtJob) (argsets : List (List (String × String)))
    (hname : alistGet registry (subst jobname) = some raddr)
    (hlt : raddr < store0.length)
    (hne : ∀ a ∈ argsets, a ≠ []) :
    (forwardModelLoopAlloc subst afs registry cf
        (argsets.map fun a => FMEntry.withArgs jobname (.pairs a))
        store0 [] []).2.1 = [] ∧
    (forwardModelLoopAlloc subst afs registry cf
        (argsets.map fun a => FMEntry.withArgs jobname (.pairs a))
        store0 [] []).2.2.length = argsets.length ∧
    (∀ i, i < argsets.length →
      (forwardModelLoopAlloc subst afs registry cf
        (argsets.map fun a => FMEntry.withArgs jobname (.pairs a))
        store0 [] []).2.2[i]? = some (store0.length + i)) ∧
    (∀ i (hi : i < argsets.length),
      (forwardModelLoopAlloc subst afs registry cf
        (argsets.map fun a => FMEntry.withArgs jobname (.pairs a))
        store0 [] []).1[store0.length + i]? =
      some { store0.getD raddr default with
        private_args := mkPrivateArgs (argsets.get ⟨i, hi⟩) }) ∧
    ((forwardModelLoopAlloc subst afs registry cf
        (argsets.map fun a => FMEntry.withArgs jobname (.pairs a))
        store0 [] []).1[raddr]? = store0[raddr]?) ∧
    (∀ i j, i < argsets.length → j < argsets.length → j ≠ i →
      ∀ newArgs,
      (storeSetPrivateArgs (forwardModelLoopAlloc subst afs registry cf
          (argsets.map fun a => FMEntry.withArgs jobname (.pairs a))
          store0 [] []).1 (store0.length + i) newArgs)[store0.length + j]? =
      (forwardModelLoopAlloc subst afs registry cf
        (argsets.map fun a => FMEntry.withArgs jobname (.pairs a))
        store0 [] []).1[store0.length + j]?) ∧
    (∀ i, i < argsets.length → ∀ newArgs,
      (storeSetPrivateArgs (forwardModelLoopAlloc subst afs registry cf
          (argsets.map fun a => FMEntry.withArgs jobname (.pairs a))
          store0 [] []).1 (store0.length + i) newArgs)[raddr]? =
      (forwardModelLoopAlloc subst afs registry cf
        (argsets.map fun a => FMEntry.withArgs jobname (.pairs a))
        store0 [] []).1[raddr]?) := by
  have key := forwardModelLoopAlloc_resolved subst afs registry cf jobname raddr
    store0 hname hlt argsets [] [] []
  simp only [List.append_nil, List.nil_append] at key
  refine ⟨?_, ?_, ?_, ?_, ?_, ?_, ?_⟩
  · rw [key]
  · rw [key]
    simp
  · intro i hi
    rw [key]
    simp [hi]
  · intro i hi
    rw [key]
    rw [List.getElem?_append_right (by simp)]
    simp only [List.length_append]
    have : store0.length + i - store0.length = i := by omega
    rw [this]
    rw [List.getElem?_map]
    rw [List.getElem?_eq_getElem (by simpa using hi)]
    have hne' : argsets[i] ≠ [] := hne _ (List.getElem_mem _)
    simp [allocJobOf, hne']
  · rw [key]
    rw [List.getElem?_append]
    simp [hlt]
  · intro i j hi hj hij newArgs
    exact storeSetPrivateArgs_get_ne _ _ _ _ (by omega)
  · intro i hi newArgs
    exact storeSetPrivateArgs_get_ne _ _ _ _ (by omega)



/-- Witness for C1: two invocations of the registered job `j` with distinct
private argument sets, over a one-object store. -/
theorem read_forward_model_c1_witness :
    (forwardModelLoopAlloc (fun s => s) (fun _ => .ok []) [("j", 0)] "c.ert"
        ([[("A", "1")], [("A", "2")]].map fun a => FMEntry.withArgs "j" (.pairs a))
        [{ name := "j", executable := "/bin/j" }] [] []).2.1 = [] ∧
    (forwardModelLoopAlloc (fun s => s) (fun _ => .ok []) [("j", 0)] "c.ert"
        ([[("A", "1")], [("A", "2")]].map fun a => FMEntry.withArgs "j" (.pairs a))
        [{ name := "j", executable := "/bin/j" }] [] []).2.2.length = 2 ∧
    (forwardModelLoopAlloc (fun s => s) (fun _ => .ok []) [("j", 0)] "c.ert"
        ([[("A", "1")], [("A", "2")]].map fun a => FMEntry.withArgs "j" (.pairs a))
        [{ name := "j", executable := "/bin/j" }] [] []).2.2[0]? = some 1 ∧
    (forwardModelLoopAlloc (fun s => s) (fun _ => .ok []) [("j", 0)] "c.ert"
        ([[("A", "1")], [("A", "2")]].map fun a => FMEntry.withArgs "j" (.pairs a))
        [{ name := "j", executable := "/bin/j" }] [] []).1[1]? =
      some { name := "j", executable := "/bin/j",
             private_args := [("A", "1")] } ∧
    (forwardModelLoopAlloc (fun s => s) (fun _ => .ok []) [("j", 0)] "c.ert"
        ([[("A", "1")], [("A", "2")]].map fun a => FMEntry.withArgs "j" (.pairs a))
        [{ name := "j", executable := "/bin/j" }] [] []).1[0]? =
      ([{ name := "j", executable := "/bin/j" }] : List ExtJob)[0]? ∧
    (storeSetPrivateArgs (forwardModelLoopAlloc (fun s => s) (fun _ => .ok [])
        [("j", 0)] "c.ert"
        ([[("A", "1")], [("A", "2")]].map fun a => FMEntry.withArgs "j" (.pairs a))
        [{ name := "j", executable := "/bin/j" }] [] []).1 1 [("B", "9")])[2]? =
      (forwardModelLoopAlloc (fun s => s) (fun _ => .ok []) [("j", 0)] "c.ert"
        ([[("A", "1")], [("A", "2")]].map fun a => FMEntry.withArgs "j" (.pairs a))
        [{ name := "j", executable := "/bin/j" }] [] []).1[2]? ∧
    (storeSetPrivateArgs (forwardModelLoopAlloc (fun s => s) (fun _ => .ok [])
        [("j", 0)] "c.ert"
        ([[("A", "1")], [("A", "2")]].map fun a => FMEntry.withArgs "j" (.pairs a))
        [{ name := "j", executable := "/bin/j" }] [] []).1 1 [("B", "9")])[0]? =
      (forwardModelLoopAlloc (fun s => s) (fun _ => .ok []) [("j", 0)] "c.ert"
        ([[("A", "1")], [("A", "2")]].map fun a => FMEntry.withArgs "j" (.pairs a))
        [{ name := "j", executable := "/bin/j" }] [] []).1[0]? :=
  have h := read_forward_model_c1 (fun s => s) (fun _ => .ok []) [("j", 0)] "c.ert"
    "j" 0 [{ name := "j", executable := "/bin/j" }] [[("A", "1")], [("A", "2")]]
    (by decide) (by decide) (by decide)
  ⟨h.1, h.2.1, h.2.2.1 0 (by decide), h.2.2.2.1 0 (by decide), h.2.2.2.2.1,
   h.2.2.2.2.2.1 0 1 (by decide) (by decide) (by decide) [("B", "9")],
   h.2.2.2.2.2.2 0 (by decide) [("B", "9")]⟩


end ErtSpec
